import Mathlib

/-!
# Mock-test attempt engine (`backend1/controllers/MockTestController.js`)

A shallow embedding of the server-side attempt state machine: `startTestAttempt`,
`saveResponse`, `syncProgress`, `transitionSection`, `submitTest` and `getAttemptData`,
together with the collection of attempts as `backend1/models/MockTestAttempt.js`
declares it.

Conventions of the embedding

* A JavaScript `Date` is an `Int`, the number of milliseconds since the epoch;
  every `new Date()` of one request is the single parameter `now`.
* A value that may be `undefined` is an `Option`; JavaScript truthiness is spelled out
  (`truthyKey`, `truthyAnswer`, `jsOr`).  A JSON `null` sent as `selectedAnswer` is
  `Answer.null`; a `null` element of an array is `none`.
* Numbers are `Int` (durations in minutes, marks, indices).  `Math.floor(x / 1000)`
  on an integer `x` is `x / 1000` on `Int`, which rounds towards minus infinity for
  the positive divisor `1000`.
* There are two records for an attempt.  `StoredAttempt` is the document of the
  collection: the paths of `mockTestAttemptSchema` that the controller reads or
  writes.  `Attempt` is the document object a handler works on: the same paths together
  with the properties the controller assigns that the schema does not declare
  (`sectionStates`, `currentSectionKey`, `isSubmitted`, `score`, ...).  The schema is
  strict, so such a property is `undefined` on every loaded document (`hydrate`) and
  is dropped by the constructor and by `attempt.save()` (`toStored`).
* An `ObjectId` is the string that its `toString()` returns.  A request carries plain
  strings; the cast of a string to an `ObjectId` is the parameter `castObjectId`.
* A handler is a function from the loaded document to the HTTP result together with
  the document that `attempt.save()` wrote, which is the loaded document itself when
  the handler returns or throws without a successful save.  An exception is caught by
  the handler and answered with status 500.
* `array.find(p)` / `array.findIndex(p)` followed by a field assignment is
  `modifyFirst p f`, the update of the first element that satisfies `p`.
* The schema paths that the controller never assigns (`completedAt`, `totalScore`,
  `sectionWiseStats`, the timestamps, ...) keep their defaults and are left out, as is
  `seriesId`, which no handler reads back.
-/

namespace MockTest

/-! ## Data model -/

/-- The `selectedAnswer` / `correctAnswer` payload: `null`, a string (MCQ, NAT) or an
array of option identifiers (MSQ).  Option identifiers are natural numbers, ordered the
way the default `Array.prototype.sort` orders the identifiers. -/
inductive Answer where
  | null
  | text (s : String)
  | options (l : List Nat)
  deriving DecidableEq

/-- One section of the test definition (`test.sections[i]`); `questions` holds the
`ObjectId`s of the cached questions. -/
structure SectionDef where
  name : String
  duration : Int
  questions : List String := []
  deriving DecidableEq

/-- The series document a test belongs to, with the `studentId`s of its
`enrolledStudents`. -/
structure Series where
  enrolledStudents : List String := []
  deriving DecidableEq

/-- The test definition document (`MockTest`); `series` is the populated `seriesId`,
`none` when the reference resolves to no document. -/
structure Test where
  sections : List SectionDef
  duration : Int := 0
  isActive : Bool := true
  isPublished : Bool := true
  isFree : Bool := true
  series : Option Series := some {}
  deriving DecidableEq

/-- The marking scheme of a question (`question.marks`). -/
structure QuestionMarks where
  positive : Int
  negative : Int
  deriving DecidableEq

/-- A question document (`MockTestQuestion`); `sectionName` is its field `section`. -/
structure Question where
  sectionName : String
  questionType : String
  correctAnswer : Answer
  marks : QuestionMarks
  deriving DecidableEq

/-- One element of the property `attempt.sectionStates`. -/
structure SectionState where
  sectionKey : Option String
  startedAt : Option Int := none
  remainingSeconds : Int := 0
  isLocked : Bool := false
  isCompleted : Bool := false
  completedAt : Option Int := none
  deriving DecidableEq

/-- One element of `attempt.responses` as the collection stores it: of the paths of
`questionResponseSchema` only `questionId` is ever assigned by the controller. -/
structure StoredResponse where
  questionId : String
  deriving DecidableEq

/-- One element of `attempt.responses` on the document a handler works on: the
subdocument with its `questionId` and the properties that the controller assigns to it
and `questionResponseSchema` does not declare. -/
structure Response where
  questionId : String
  selectedAnswer : Option Answer := none
  isAnswered : Option Bool := none
  isMarkedForReview : Option Bool := none
  isVisited : Option Bool := none
  answeredAt : Option Int := none
  deriving DecidableEq

/-- The `status` enumeration of an attempt. -/
inductive Status where
  | NOT_STARTED
  | IN_PROGRESS
  | COMPLETED
  | EXPIRED
  deriving DecidableEq

/-- The object `attempt.score`. -/
structure AttemptScore where
  total : Int := 0
  deriving DecidableEq

/-- The object `attempt.marks`. -/
structure AttemptMarks where
  total : Int := 0
  positive : Int := 0
  negative : Int := 0
  deriving DecidableEq

/-- The attempt document of the collection (`mockTestAttemptSchema`); `attemptId` is its
`_id`. -/
structure StoredAttempt where
  attemptId : String := ""
  userId : String := ""
  testPaperId : String := ""
  status : Status := Status.NOT_STARTED
  startedAt : Int := 0
  responses : List StoredResponse := []
  deriving DecidableEq

/-- The attempt document as a handler reads and writes it: the schema paths, then the
properties outside the schema, each `none` while it is `undefined`.  `timeSpent` is
also `none` when the computation yields `NaN`. -/
structure Attempt where
  attemptId : String := ""
  userId : String := ""
  testPaperId : String := ""
  status : Status := Status.NOT_STARTED
  startedAt : Int := 0
  responses : List Response := []
  isCompleted : Option Bool := none
  isSubmitted : Option Bool := none
  totalDuration : Option Int := none
  startTime : Option Int := none
  endTime : Option Int := none
  timeSpent : Option Int := none
  currentSectionKey : Option String := none
  currentSectionIndex : Option Int := none
  currentQuestionIndex : Option Int := none
  sectionStates : Option (List SectionState) := none
  lastSyncedAt : Option Int := none
  score : Option AttemptScore := none
  marks : Option AttemptMarks := none
  deriving DecidableEq

/-- The document that a query of the collection yields: the stored paths, no property
outside the schema. -/
def hydrate (stored : StoredAttempt) : Attempt :=
  { attemptId := stored.attemptId, userId := stored.userId, testPaperId := stored.testPaperId,
    status := stored.status, startedAt := stored.startedAt,
    responses := stored.responses.map (fun r => { questionId := r.questionId }) }

/-- What `attempt.save()` and the constructor `new MockTestAttempt(...)` keep of a
document: the paths of the strict schema. -/
def toStored (attempt : Attempt) : StoredAttempt :=
  { attemptId := attempt.attemptId, userId := attempt.userId,
    testPaperId := attempt.testPaperId, status := attempt.status,
    startedAt := attempt.startedAt,
    responses := attempt.responses.map (fun r => { questionId := r.questionId }) }

/-- The collaborators of the controller: the test definition store
(`MockTest.findById`, also behind `populate('testPaperId')`), the question bank
(`MockTestQuestion.findById` on an `ObjectId`), the builtin `parseFloat`, whose result
is `none` for `NaN`, `mongoose.Types.ObjectId.isValid`, and the cast of a request
string to an `ObjectId`, `none` when the cast fails. -/
structure Env where
  findTest : String → Option Test
  findQuestion : String → Option Question
  parseFloat : Option Answer → Option Int
  castObjectId : String → Option String
  isValidObjectId : String → Bool := fun _ => true

/-! ## JavaScript helpers -/

/-- Truthiness of a possibly missing string: missing and `""` are falsy. -/
def truthyKey : Option String → Bool
  | none => false
  | some s => s != ""

/-- Truthiness of a `selectedAnswer`: missing, `null` and `""` are falsy, an array is
truthy. -/
def truthyAnswer : Option Answer → Bool
  | none => false
  | some Answer.null => false
  | some (Answer.text s) => s != ""
  | some (Answer.options _) => true

/-- The operator `a || b` on possibly missing strings. -/
def jsOr (a b : Option String) : Option String :=
  if truthyKey a then a else b

/-- Update of the first element satisfying `p` (a `find` followed by assignments to the
fields of the element found); the list is unchanged when there is none. -/
def modifyFirst {α : Type} (p : α → Bool) (f : α → α) : List α → List α
  | [] => []
  | x :: xs => if p x then f x :: xs else x :: modifyFirst p f xs

/-- The result of `array.findIndex(p)`: the index of the first match, `-1` without one. -/
def findIndex {α : Type} (p : α → Bool) : List α → Int
  | [] => -1
  | x :: xs => if p x then 0 else
      let i := findIndex p xs
      if i = -1 then -1 else i + 1

/-! ## Timing authority -/

/-- The remaining seconds of a section that started at `startedAt` (milliseconds) with
`sectionTotalSeconds` in total:
`Math.max(0, sectionTotalSeconds - Math.floor((currentTime - sectionStartTime) / 1000))`. -/
def serverRemaining (startedAt sectionTotalSeconds now : Int) : Int :=
  max 0 (sectionTotalSeconds - (now - startedAt) / 1000)

/-- The expression `duration || 60` of `saveResponse` and `getAttemptData`. -/
def durationOr60 (duration : Int) : Int :=
  if duration = 0 then 60 else duration

/-- The remaining seconds as `syncProgress` computes them, from `sectionDef.duration * 60`. -/
def remaining (startedAt duration now : Int) : Int :=
  serverRemaining startedAt (duration * 60) now

/-- The section state by key, the lookup `sectionStates.find(s => s.sectionKey === key)`. -/
def findState (states : List SectionState) (key : Option String) : Option SectionState :=
  states.find? (fun s => s.sectionKey == key)

/-- The lookup `attempt.sectionStates?.find(s => s.sectionKey === key)`, `undefined`
when the attempt has no `sectionStates`. -/
def findStateOpt (states : Option (List SectionState)) (key : Option String) :
    Option SectionState :=
  states.bind (fun l => findState l key)

/-- The assignments that lock a section state at time `now`. -/
def lockState (now : Int) (s : SectionState) : SectionState :=
  { s with isLocked := true, isCompleted := true, remainingSeconds := 0,
           completedAt := some now }

/-! ## SaveResponse -/

/-- Body of a `saveResponse` request. -/
structure SaveRequest where
  questionId : String
  selectedAnswer : Option Answer
  isMarkedForReview : Option Bool := none
  deriving DecidableEq

/-- The JSON result of `saveResponse` with its HTTP status. -/
structure SaveResult where
  status : Nat
  success : Bool
  sectionLocked : Bool := false
  error : Option String := none
  deriving DecidableEq

/-- The section a question is attributed to by `saveResponse`: the first section whose
cached `questions` hold the id as sent, else the section named by the question document.
The outer `none` is the `CastError` that `MockTestQuestion.findById` throws for a string
that is no `ObjectId`. -/
def questionSection (env : Env) (test : Test) (questionId : String) :
    Option (Option SectionDef) :=
  match test.sections.find? (fun sec => sec.questions.any (fun q => q == questionId)) with
  | some sec => some (some sec)
  | none =>
    match env.castObjectId questionId with
    | none => none
    | some id =>
      match env.findQuestion id with
      | some questionDoc =>
        if questionDoc.sectionName != "" then
          some (test.sections.find? (fun sec => sec.name == questionDoc.sectionName))
        else some none
      | none => some none

/-- The server-side time enforcement block of `saveResponse`: `some` is an early return
(with the document as saved), `none` lets the request fall through to the upsert. -/
def enforceSectionTime (env : Env) (now : Int) (attempt : Attempt) (questionId : String) :
    Option (SaveResult × Attempt) :=
  match env.findTest attempt.testPaperId with
  | none => none
  | some test =>
    match questionSection env test questionId with
    | none => some ({ status := 500, success := false }, attempt)
    | some none =>
      some ({ status := 403, success := false, error := some "SECTION_NOT_FOUND" }, attempt)
    | some (some sec) =>
      match findStateOpt attempt.sectionStates (some sec.name) with
      | none => none
      | some sectionState =>
        if sectionState.isLocked || sectionState.isCompleted then
          some ({ status := 403, success := false, sectionLocked := true }, attempt)
        else
          match sectionState.startedAt with
          | none => none
          | some sectionStartTime =>
            if serverRemaining sectionStartTime (durationOr60 sec.duration * 60) now = 0 then
              some ({ status := 403, success := false, sectionLocked := true },
                { attempt with sectionStates :=
                    (attempt.sectionStates.map
                      (modifyFirst (fun s => s.sectionKey == some sec.name) (lockState now))) })
            else none

/-- The update-or-push of one response by `saveResponse`.  The stored `questionId` is
compared through its `toString()` with the string of the request.  A push casts the new
element to the subdocument schema, which keeps its `questionId` only; the result is
`none` when that cast fails, which makes `attempt.save()` throw. -/
def upsertResponse (env : Env) (now : Int) (responses : List Response) (req : SaveRequest) :
    Option (List Response) :=
  if responses.any (fun resp => resp.questionId == req.questionId) then
    some (modifyFirst (fun resp => resp.questionId == req.questionId)
      (fun resp => { resp with
        selectedAnswer := req.selectedAnswer,
        isAnswered := some (truthyAnswer req.selectedAnswer),
        isMarkedForReview := some (req.isMarkedForReview.getD false),
        answeredAt := some now }) responses)
  else
    (env.castObjectId req.questionId).map (fun id => responses ++ [{ questionId := id }])

/-- The handler `saveResponse` on a loaded attempt. -/
def saveResponse (env : Env) (now : Int) (attempt : Attempt) (req : SaveRequest) :
    SaveResult × Attempt :=
  if attempt.isCompleted == some true || attempt.isSubmitted == some true then
    ({ status := 400, success := false }, attempt)
  else
    match enforceSectionTime env now attempt req.questionId with
    | some early => early
    | none =>
      match upsertResponse env now attempt.responses req with
      | none => ({ status := 500, success := false }, attempt)
      | some responses =>
        ({ status := 200, success := true }, { attempt with responses := responses })

/-! ## SyncProgress -/

/-- One element of the `responses` batch of a `syncProgress` request. -/
structure SyncResponse where
  questionId : Option String
  selectedAnswer : Option Answer := none
  isMarkedForReview : Option Bool := none
  deriving DecidableEq

/-- The client's view `sectionStates` of a `syncProgress` request when it is present: a
value that is no array, or an array whose elements are section-state objects or `null`. -/
inductive ClientView where
  | notArray
  | array (l : List (Option SectionState))
  deriving DecidableEq

/-- Body of a `syncProgress` request; `sectionStates` is `none` when the field is missing
or `null`; an element of the batch `responses` is an object or `null`, and `responses` is
`none` when the field is missing or no array. -/
structure SyncRequest where
  currentSectionIndex : Option Int := none
  currentQuestionIndex : Option Int := none
  currentSectionKey : Option String := none
  sectionStates : Option ClientView := none
  responses : Option (List (Option SyncResponse)) := none
  deriving DecidableEq

/-- The JSON result of `syncProgress` with its HTTP status. -/
structure SyncResult where
  status : Nat
  success : Bool
  lastSyncedAt : Option Int := none
  sectionStates : Option (List SectionState) := none
  currentSectionKey : Option String := none
  deriving DecidableEq

/-- The test `!isValidBackNav` of `syncProgress`, evaluated when the client claims a
section key other than the server's. -/
def isValidBackNav (attempt : Attempt) (test : Test) (currentSectionKey : Option String) :
    Bool :=
  let targetSectionIdx := findIndex (fun s => some s.name == currentSectionKey) test.sections
  match findStateOpt attempt.sectionStates currentSectionKey with
  | some targetSectionState =>
    targetSectionState.startedAt.isSome &&
      decide (targetSectionIdx ≤ attempt.currentSectionIndex.getD 0)
  | none => false

/-- The scan `find(s => s.sectionKey === name)` over the client's array; the outer `none`
is the `TypeError` of reading `sectionKey` of a `null` element. -/
def clientFind : List (Option SectionState) → String → Option (Option SectionState)
  | [], _ => some none
  | none :: _, _ => none
  | some s :: rest, name =>
    if s.sectionKey == some name then some (some s) else clientFind rest name

/-- The value `clientState = sectionStates?.find(...)` that the callback of
`test.sections.map` looks up and never reads; the outer `none` is the `TypeError` of a
view that is no array or holds `null` before the first match. -/
def clientState (sectionStates : Option ClientView) (sectionDef : SectionDef) :
    Option (Option SectionState) :=
  match sectionStates with
  | none => some none
  | some ClientView.notArray => none
  | some (ClientView.array l) => clientFind l sectionDef.name

/-- The value the callback of `test.sections.map` returns for one section, from the
server's states. -/
def validatedState (now : Int) (states : Option (List SectionState)) (sectionDef : SectionDef) :
    SectionState :=
  match findStateOpt states (some sectionDef.name) with
  | some existingState =>
    if existingState.isLocked || existingState.isCompleted then
      { sectionKey := some sectionDef.name, startedAt := existingState.startedAt,
        remainingSeconds := 0, isLocked := true, isCompleted := true,
        completedAt := existingState.completedAt }
    else
      match existingState.startedAt with
      | some startedAt =>
        if remaining startedAt sectionDef.duration now = 0 then
          { sectionKey := some sectionDef.name, startedAt := some startedAt,
            remainingSeconds := 0, isCompleted := true, isLocked := true,
            completedAt := some now }
        else
          { sectionKey := some sectionDef.name, startedAt := some startedAt,
            remainingSeconds := remaining startedAt sectionDef.duration now,
            isLocked := false, isCompleted := false, completedAt := none }
      | none => existingState
  | none =>
    { sectionKey := some sectionDef.name, startedAt := none,
      remainingSeconds := sectionDef.duration * 60, isLocked := false,
      isCompleted := false, completedAt := none }

/-- The list `validatedStates`, one state per section of the test definition, built in
the order of the sections; `none` when a callback throws on the client's view. -/
def validatedStates (now : Int) (states : Option (List SectionState))
    (view : Option ClientView) : List SectionDef → Option (List SectionState)
  | [] => some []
  | sectionDef :: rest =>
    match clientState view sectionDef with
    | none => none
    | some _ =>
      (validatedStates now states view rest).map
        (fun l => validatedState now states sectionDef :: l)

/-- The set `expiredSectionKeys` as the list of its keys. -/
def expiredSectionKeys (validated : List SectionState) : List (Option String) :=
  (validated.filter (fun s => s.isLocked || s.isCompleted)).map (fun s => s.sectionKey)

/-- The value of `questionSectionName` after both lookups of `syncProgress`: `some none`
when it is falsy and the response is skipped, `none` for the `CastError` of
`MockTestQuestion.findById`. -/
def questionSectionName (env : Env) (test : Test) (questionId : String) :
    Option (Option String) :=
  let cached := (test.sections.find? (fun sec => sec.questions.any (fun q => q == questionId))).map
    (fun sec => sec.name)
  if truthyKey cached then some cached
  else
    match env.castObjectId questionId with
    | none => none
    | some id =>
      match env.findQuestion id with
      | some questionDoc =>
        if questionDoc.sectionName != "" then some (some questionDoc.sectionName) else some none
      | none => some none

/-- The field assignments of `syncProgress` on a response that exists already. -/
def syncUpdate (now : Int) (resp : SyncResponse) (r : Response) : Response :=
  let r1 : Response := match resp.selectedAnswer with
    | some a => { r with selectedAnswer := some a, isAnswered := some (truthyAnswer (some a)) }
    | none => r
  let r2 : Response := match resp.isMarkedForReview with
    | some b => { r1 with isMarkedForReview := some b }
    | none => r1
  { r2 with answeredAt := some now }

/-- The update-or-push of one batched response by `syncProgress`; the result is `none`
when the pushed element cannot be cast, which makes `attempt.save()` throw. -/
def syncUpsert (env : Env) (now : Int) (responses : List Response) (resp : SyncResponse)
    (questionId : String) : Option (List Response) :=
  if responses.any (fun r => r.questionId == questionId) then
    some (modifyFirst (fun r => r.questionId == questionId) (syncUpdate now resp) responses)
  else if truthyAnswer resp.selectedAnswer then
    (env.castObjectId questionId).map (fun id => responses ++ [{ questionId := id }])
  else some responses

/-- One iteration of the loop over the submitted responses; `none` when the iteration
throws (a `null` element, a `questionId` that is no `ObjectId`). -/
def syncOne (env : Env) (now : Int) (test : Test) (expired : List (Option String))
    (responses : List Response) (resp : Option SyncResponse) : Option (List Response) :=
  match resp with
  | none => none
  | some resp =>
    match resp.questionId with
    | none => some responses
    | some questionId =>
      if questionId == "" then some responses
      else
        match questionSectionName env test questionId with
        | none => none
        | some none => some responses
        | some (some name) =>
          if expired.contains (some name) then some responses
          else syncUpsert env now responses resp questionId

/-- The loop over the submitted responses, from the responses of the attempt. -/
def syncBatch (env : Env) (now : Int) (test : Test) (expired : List (Option String)) :
    List Response → List (Option SyncResponse) → Option (List Response)
  | responses, [] => some responses
  | responses, resp :: rest =>
    match syncOne env now test expired responses resp with
    | none => none
    | some responses1 => syncBatch env now test expired responses1 rest

/-- The handler `syncProgress` on a loaded attempt. -/
def syncProgress (env : Env) (now : Int) (attempt : Attempt) (req : SyncRequest) :
    SyncResult × Attempt :=
  if attempt.status = Status.COMPLETED ∨ attempt.status = Status.EXPIRED then
    ({ status := 400, success := false }, attempt)
  else
    match env.findTest attempt.testPaperId with
    | none => ({ status := 404, success := false }, attempt)
    | some test =>
      if truthyKey req.currentSectionKey && req.currentSectionKey != attempt.currentSectionKey
          && !isValidBackNav attempt test req.currentSectionKey then
        ({ status := 400, success := false, currentSectionKey := attempt.currentSectionKey },
          attempt)
      else
        let questionIndex :=
          match req.currentQuestionIndex with
          | some i => some i
          | none => attempt.currentQuestionIndex
        let sectionIndex :=
          match req.currentSectionIndex with
          | some i =>
            if req.currentSectionKey = attempt.currentSectionKey then some i
            else attempt.currentSectionIndex
          | none => attempt.currentSectionIndex
        match validatedStates now attempt.sectionStates req.sectionStates test.sections with
        | none => ({ status := 500, success := false }, attempt)
        | some validated =>
          let expired := expiredSectionKeys validated
          let batch :=
            match req.responses with
            | some batch => syncBatch env now test expired attempt.responses batch
            | none => some attempt.responses
          match batch with
          | none => ({ status := 500, success := false }, attempt)
          | some responses =>
            ({ status := 200, success := true, lastSyncedAt := some now,
               sectionStates := some validated },
             { attempt with
                 currentQuestionIndex := questionIndex,
                 currentSectionIndex := sectionIndex,
                 sectionStates := some validated,
                 responses := responses,
                 lastSyncedAt := some now,
                 status := Status.IN_PROGRESS })

/-! ## TransitionSection -/

/-- Body of a `transitionSection` request, in both payload formats. -/
structure TransitionRequest where
  fromSection : Option String := none
  currentSectionKey : Option String := none
  toSection : Option String := none
  nextSectionKey : Option String := none
  deriving DecidableEq

/-- The JSON result of `transitionSection` with its HTTP status. -/
structure TransitionResult where
  status : Nat
  success : Bool
  currentSectionKey : Option String := none
  currentSectionIndex : Option Int := none
  sectionStates : Option (List SectionState) := none
  deriving DecidableEq

/-- The force-lock of the section the client leaves: the state found is marked, and a
locked state is pushed when there is none. -/
def lockFromSection (now : Int) (states : List SectionState) (fromSection : Option String) :
    List SectionState :=
  match findState states fromSection with
  | some _ => modifyFirst (fun s => s.sectionKey == fromSection) (lockState now) states
  | none =>
    states ++ [{ sectionKey := fromSection, isCompleted := true, completedAt := some now,
                 isLocked := true, remainingSeconds := 0 }]

/-- The assignments that start the clock of a section state at time `now`. -/
def startState (now sectionTotalSeconds : Int) (s : SectionState) : SectionState :=
  { s with startedAt := some now, remainingSeconds := sectionTotalSeconds }

/-- The initialisation of the section the client enters. -/
def initNextSection (now : Int) (states : List SectionState) (toSection : Option String)
    (nextSection : SectionDef) : List SectionState :=
  match findState states toSection with
  | none =>
    states ++ [{ sectionKey := toSection, startedAt := some now,
                 remainingSeconds := nextSection.duration * 60,
                 isLocked := false, isCompleted := false }]
  | some nextSectionState =>
    if nextSectionState.startedAt.isNone then
      modifyFirst (fun s => s.sectionKey == toSection)
        (startState now (nextSection.duration * 60)) states
    else states

/-- The handler `transitionSection` on a loaded attempt.  On an attempt without
`sectionStates` the call `attempt.sectionStates.find` throws; a missing test definition
makes `test.sections` throw; both are answered with status 500. -/
def transitionSection (env : Env) (now : Int) (attempt : Attempt) (req : TransitionRequest) :
    TransitionResult × Attempt :=
  let fromSection := jsOr req.fromSection req.currentSectionKey
  let toSection := jsOr req.toSection req.nextSectionKey
  if attempt.status = Status.COMPLETED ∨ attempt.status = Status.EXPIRED then
    ({ status := 400, success := false }, attempt)
  else
    match attempt.sectionStates with
    | none => ({ status := 500, success := false }, attempt)
    | some sectionStates =>
      let locked := lockFromSection now sectionStates fromSection
      match env.findTest attempt.testPaperId with
      | none => ({ status := 500, success := false }, attempt)
      | some test =>
        let nextSectionIndex := findIndex (fun s => some s.name == toSection) test.sections
        if nextSectionIndex = -1 ∧ truthyKey toSection = true then
          ({ status := 400, success := false }, attempt)
        else if truthyKey toSection then
          match test.sections.find? (fun s => some s.name == toSection) with
          | none => ({ status := 500, success := false }, attempt)
          | some nextSection =>
            let states := initNextSection now locked toSection nextSection
            ({ status := 200, success := true, currentSectionKey := toSection,
               currentSectionIndex := some nextSectionIndex, sectionStates := some states },
             { attempt with
                 sectionStates := some states,
                 currentSectionKey := toSection,
                 currentSectionIndex := some nextSectionIndex,
                 currentQuestionIndex := some 0,
                 lastSyncedAt := some now })
        else
          ({ status := 200, success := true, currentSectionKey := attempt.currentSectionKey,
             currentSectionIndex := attempt.currentSectionIndex,
             sectionStates := some locked },
           { attempt with sectionStates := some locked, lastSyncedAt := some now })

/-! ## Submit -/

/-- The JSON result of `submitTest` with its HTTP status; `score` is present on success
only. -/
structure SubmitResult where
  status : Nat
  success : Bool
  score : Option Int := none
  timeSpent : Option Int := none
  deriving DecidableEq

/-- The running totals `totalScore`, `positiveMarks`, `negativeMarks`.  Marks are taken
to be integers: the code adds JavaScript numbers, and the sums here are those of the code
as long as every mark is an integer. -/
structure ScoreAcc where
  totalScore : Int := 0
  positiveMarks : Int := 0
  negativeMarks : Int := 0
  deriving DecidableEq

/-- The comparison `JSON.stringify(selected.sort()) === JSON.stringify(correct.sort())`
on two arrays of option identifiers. -/
def msqCorrect (selected correct : List Nat) : Bool :=
  List.insertionSort (fun a b => a ≤ b) selected == List.insertionSort (fun a b => a ≤ b) correct

/-- The value of `isCorrect` for one answered response; `none` when the comparison throws
a `TypeError` (`.sort()` on a value that is not an array). -/
def isCorrect (env : Env) (question : Question) (selectedAnswer : Option Answer) :
    Option Bool :=
  if question.questionType = "MCQ" then
    match selectedAnswer, question.correctAnswer with
    | some (Answer.text a), Answer.text b => some (a == b)
    | some Answer.null, Answer.null => some true
    | _, _ => some false
  else if question.questionType = "MSQ" then
    match selectedAnswer, question.correctAnswer with
    | some (Answer.options selected), Answer.options correct => some (msqCorrect selected correct)
    | _, _ => none
  else if question.questionType = "NAT" then
    match env.parseFloat selectedAnswer, env.parseFloat (some question.correctAnswer) with
    | some a, some b => some (a == b)
    | _, _ => some false
  else some false

/-- The response after the comparison: for a multi-select question `.sort()` has sorted
the array `selectedAnswer` in place. -/
def sortSelected (question : Question) (response : Response) : Response :=
  if question.questionType = "MSQ" then
    match response.selectedAnswer with
    | some (Answer.options selected) =>
      { response with
        selectedAnswer := some (Answer.options (List.insertionSort (fun a b => a ≤ b) selected)) }
    | _ => response
  else response

/-- One iteration of the scoring loop of `submitTest`: the running totals and the
response as the iteration leaves it; `none` when the iteration throws. -/
def scoreStep (env : Env) (acc : ScoreAcc) (response : Response) :
    Option (ScoreAcc × Response) :=
  if response.isAnswered == some true then
    match env.findQuestion response.questionId with
    | some question =>
      match isCorrect env question response.selectedAnswer with
      | none => none
      | some true =>
        some ({ acc with totalScore := acc.totalScore + question.marks.positive,
                         positiveMarks := acc.positiveMarks + question.marks.positive },
              sortSelected question response)
      | some false =>
        some ({ acc with totalScore := acc.totalScore + question.marks.negative,
                         negativeMarks := acc.negativeMarks + |question.marks.negative| },
              sortSelected question response)
    | none => some (acc, response)
  else some (acc, response)

/-- The scoring loop from given running totals; `none` when an iteration throws. -/
def scoreFrom (env : Env) : ScoreAcc → List Response → Option (ScoreAcc × List Response)
  | acc, [] => some (acc, [])
  | acc, response :: rest =>
    match scoreStep env acc response with
    | none => none
    | some (acc1, response1) =>
      (scoreFrom env acc1 rest).map (fun p => (p.1, response1 :: p.2))

/-- The scoring loop of `submitTest` over all responses of the attempt. -/
def computeScore (env : Env) (responses : List Response) :
    Option (ScoreAcc × List Response) :=
  scoreFrom env {} responses

/-- The value `Math.floor((endTime - startTime) / (1000 * 60))`, `none` (`NaN`) without a
`startTime`. -/
def timeSpentMinutes (startTime : Option Int) (endTime : Int) : Option Int :=
  startTime.map (fun t => (endTime - t) / (1000 * 60))

/-- The handler `submitTest` on a loaded attempt.  The assignments
`attempt.score.total = ...` and `attempt.marks.total = ...` throw a `TypeError` on an
attempt without the objects `score` and `marks`, which is answered with status 500. -/
def submitTest (env : Env) (now : Int) (attempt : Attempt) : SubmitResult × Attempt :=
  if attempt.isSubmitted == some true then
    ({ status := 400, success := false }, attempt)
  else
    match computeScore env attempt.responses with
    | none => ({ status := 500, success := false }, attempt)
    | some (acc, responses) =>
      match attempt.score, attempt.marks with
      | some score, some _ =>
        ({ status := 200, success := true, score := some acc.totalScore,
           timeSpent := timeSpentMinutes attempt.startTime now },
         { attempt with
             responses := responses,
             isCompleted := some true,
             isSubmitted := some true,
             endTime := some now,
             timeSpent := timeSpentMinutes attempt.startTime now,
             score := some { score with total := acc.totalScore },
             marks := some { total := acc.totalScore, positive := acc.positiveMarks,
                             negative := acc.negativeMarks } })
      | _, _ => ({ status := 500, success := false }, attempt)

/-! ## Resume (`getAttemptData`) -/

/-- The JSON result of `getAttemptData` with its HTTP status: the section states of the
returned attempt, `timeRemaining` in seconds (`none` for `NaN`) and the answer map. -/
structure ResumeResult where
  status : Nat
  success : Bool
  sectionStates : Option (List SectionState) := none
  timeRemaining : Option Int := none
  responses : List (String × Answer) := []
  deriving DecidableEq

/-- The callback of `validatedSectionStates.map` in `getAttemptData`, with the value it
gives to `needsSave` (`true` when the callback sets the flag). -/
def resumeState (now : Int) (test : Test) (state : SectionState) : SectionState × Bool :=
  if state.isCompleted || state.isLocked then
    ({ state with remainingSeconds := 0, isLocked := true, isCompleted := true }, false)
  else
    match state.startedAt, test.sections.find? (fun s => some s.name == state.sectionKey) with
    | some sectionStartTime, some sectionDef =>
      let sectionTotalSeconds := durationOr60 sectionDef.duration * 60
      let calculatedRemaining := serverRemaining sectionStartTime sectionTotalSeconds now
      if calculatedRemaining = 0 then
        ({ state with remainingSeconds := 0, isCompleted := true, isLocked := true,
                      completedAt := some (state.completedAt.getD now) }, true)
      else
        let validatedRemaining :=
          min (if state.remainingSeconds = 0 then sectionTotalSeconds else state.remainingSeconds)
            calculatedRemaining
        ({ state with remainingSeconds := validatedRemaining },
          decide (validatedRemaining ≠ state.remainingSeconds))
    | _, _ => (state, false)

/-- The answer map `responseMap` as an association list, later entries overriding
earlier ones for the same question. -/
def responseMap (responses : List Response) : List (String × Answer) :=
  responses.filterMap (fun resp =>
    match resp.selectedAnswer with
    | some a => if truthyAnswer (some a) then some (resp.questionId, a) else none
    | none => none)

/-- The handler `getAttemptData` on a loaded attempt.  A missing test definition makes
`test.sections` throw, which the handler answers with status 500.  The section states
are `attempt.sectionStates || []`.  The lazy backfill of `section.questions` writes to
the test definition only and is left out. -/
def getAttemptData (env : Env) (now : Int) (attempt : Attempt) : ResumeResult × Attempt :=
  match env.findTest attempt.testPaperId with
  | none => ({ status := 500, success := false }, attempt)
  | some test =>
    let elapsedMinutes := (now - attempt.startedAt) / (1000 * 60)
    let remainingMinutes := attempt.totalDuration.map (fun total => max 0 (total - elapsedMinutes))
    let stored := attempt.sectionStates.getD []
    let validatedSectionStates := stored.map (fun s => (resumeState now test s).1)
    let needsSave := stored.any (fun s => (resumeState now test s).2)
    ({ status := 200, success := true, sectionStates := some validatedSectionStates,
       timeRemaining := remainingMinutes.map (fun m => m * 60),
       responses := responseMap attempt.responses },
     if needsSave then { attempt with sectionStates := some validatedSectionStates }
     else attempt)

/-! ## Start (`startTestAttempt`) -/

/-- The hard-coded id of the development user. -/
def devUserId : String := "507f1f77bcf86cd799439011"

/-- The JSON result of `startTestAttempt` with its HTTP status; `attempt` is the attempt
document of the reply. -/
structure StartResult where
  status : Nat
  success : Bool
  attempt : Option StoredAttempt := none
  resuming : Bool := false
  deriving DecidableEq

/-- The value of `isEnrolled` in `startTestAttempt`; `none` when reading
`series.enrolledStudents` throws because the test has no series document. -/
def isEnrolled (test : Test) (userId : String) : Option Bool :=
  if userId = devUserId then some test.isFree
  else
    match test.series with
    | some series => some (series.enrolledStudents.any (fun studentId => studentId == userId))
    | none => none

/-- The list `initialSectionStates`: one state per section, the first one started. -/
def initialSectionStates (now : Int) (test : Test) : List SectionState :=
  test.sections.mapIdx (fun index sec =>
    { sectionKey := some sec.name,
      startedAt := if index = 0 then some now else none,
      remainingSeconds := sec.duration * 60,
      isLocked := false, isCompleted := false, completedAt := none })

/-- The expression `test.sections[0]?.name || 'VARC'`. -/
def firstSectionKey (test : Test) : Option String :=
  match test.sections.head? with
  | some first => if first.name != "" then some first.name else some "VARC"
  | none => some "VARC"

/-- The object that `startTestAttempt` passes to the constructor `new MockTestAttempt`,
with the fresh `_id` `newId`. -/
def newAttemptFields (now : Int) (test : Test) (testId userId newId : String) : Attempt :=
  { attemptId := newId, userId := userId, testPaperId := testId,
    totalDuration := some test.duration, startedAt := now, status := Status.IN_PROGRESS,
    currentSectionKey := firstSectionKey test, currentSectionIndex := some 0,
    currentQuestionIndex := some 0, sectionStates := some (initialSectionStates now test),
    lastSyncedAt := some now, responses := [] }

/-- The document `newAttempt` of `startTestAttempt`: what the constructor of the strict
schema keeps of the object it is given. -/
def newAttempt (now : Int) (test : Test) (testId userId newId : String) : StoredAttempt :=
  toStored (newAttemptFields now test testId userId newId)

/-- The handler `startTestAttempt` on the collection `store` of attempts; the second
component is the collection afterwards.  The question listing of the reply and the lazy
backfill of `section.questions` do not touch the attempts and are left out. -/
def startTestAttempt (env : Env) (now : Int) (store : List StoredAttempt)
    (testId userId newId : String) : StartResult × List StoredAttempt :=
  if !env.isValidObjectId testId then ({ status := 400, success := false }, store)
  else if !env.isValidObjectId userId then ({ status := 400, success := false }, store)
  else
    match env.findTest testId with
    | none => ({ status := 404, success := false }, store)
    | some test =>
      if !test.isActive || !test.isPublished then ({ status := 404, success := false }, store)
      else
        match isEnrolled test userId with
        | none => ({ status := 500, success := false }, store)
        | some enrolled =>
          if !test.isFree && !enrolled then ({ status := 403, success := false }, store)
          else
            let existingAttempt :=
              if userId != devUserId then
                store.find? (fun a => a.userId == userId && a.testPaperId == testId)
              else none
            match existingAttempt with
            | some existing =>
              ({ status := 200, success := true, attempt := some existing, resuming := true },
                store)
            | none =>
              match test.series with
              | none => ({ status := 500, success := false }, store)
              | some _ =>
                ({ status := 201, success := true,
                   attempt := some (newAttempt now test testId userId newId) },
                 store ++ [newAttempt now test testId userId newId])

/-! ## The handlers on a stored attempt -/

/-- The handler `saveResponse` from the stored attempt to the stored attempt. -/
def Stored.saveResponse (env : Env) (now : Int) (stored : StoredAttempt) (req : SaveRequest) :
    SaveResult × StoredAttempt :=
  ((MockTest.saveResponse env now (hydrate stored) req).1,
    toStored (MockTest.saveResponse env now (hydrate stored) req).2)

/-- The handler `syncProgress` from the stored attempt to the stored attempt. -/
def Stored.syncProgress (env : Env) (now : Int) (stored : StoredAttempt) (req : SyncRequest) :
    SyncResult × StoredAttempt :=
  ((MockTest.syncProgress env now (hydrate stored) req).1,
    toStored (MockTest.syncProgress env now (hydrate stored) req).2)

/-- The handler `transitionSection` from the stored attempt to the stored attempt. -/
def Stored.transitionSection (env : Env) (now : Int) (stored : StoredAttempt)
    (req : TransitionRequest) : TransitionResult × StoredAttempt :=
  ((MockTest.transitionSection env now (hydrate stored) req).1,
    toStored (MockTest.transitionSection env now (hydrate stored) req).2)

/-- The handler `submitTest` from the stored attempt to the stored attempt. -/
def Stored.submitTest (env : Env) (now : Int) (stored : StoredAttempt) :
    SubmitResult × StoredAttempt :=
  ((MockTest.submitTest env now (hydrate stored)).1,
    toStored (MockTest.submitTest env now (hydrate stored)).2)

/-- The handler `getAttemptData` from the stored attempt to the stored attempt. -/
def Stored.getAttemptData (env : Env) (now : Int) (stored : StoredAttempt) :
    ResumeResult × StoredAttempt :=
  ((MockTest.getAttemptData env now (hydrate stored)).1,
    toStored (MockTest.getAttemptData env now (hydrate stored)).2)

/-! ## The handlers on the collection of attempts -/

/-- The load `MockTestAttempt.findOne` by `_id` and `userId`. -/
def findOne (store : List StoredAttempt) (attemptId userId : String) : Option StoredAttempt :=
  store.find? (fun a => a.attemptId == attemptId && a.userId == userId)

/-- The write `attempt.save()`: the document with the `_id` of `attempt` is replaced. -/
def saveAttempt (store : List StoredAttempt) (attempt : StoredAttempt) : List StoredAttempt :=
  modifyFirst (fun a => a.attemptId == attempt.attemptId) (fun _ => attempt) store

/-- The handler `saveResponse` from the load of the attempt on. -/
def Api.saveResponse (env : Env) (now : Int) (store : List StoredAttempt)
    (attemptId userId : String) (req : SaveRequest) : SaveResult × List StoredAttempt :=
  match findOne store attemptId userId with
  | none => ({ status := 404, success := false }, store)
  | some attempt =>
    ((Stored.saveResponse env now attempt req).1,
      saveAttempt store (Stored.saveResponse env now attempt req).2)

/-- The handler `syncProgress` from the load of the attempt on. -/
def Api.syncProgress (env : Env) (now : Int) (store : List StoredAttempt)
    (attemptId userId : String) (req : SyncRequest) : SyncResult × List StoredAttempt :=
  match findOne store attemptId userId with
  | none => ({ status := 404, success := false }, store)
  | some attempt =>
    ((Stored.syncProgress env now attempt req).1,
      saveAttempt store (Stored.syncProgress env now attempt req).2)

/-- The handler `transitionSection` from the load of the attempt on. -/
def Api.transitionSection (env : Env) (now : Int) (store : List StoredAttempt)
    (attemptId userId : String) (req : TransitionRequest) :
    TransitionResult × List StoredAttempt :=
  match findOne store attemptId userId with
  | none => ({ status := 404, success := false }, store)
  | some attempt =>
    ((Stored.transitionSection env now attempt req).1,
      saveAttempt store (Stored.transitionSection env now attempt req).2)

/-- The handler `submitTest` from the load of the attempt on. -/
def Api.submitTest (env : Env) (now : Int) (store : List StoredAttempt)
    (attemptId userId : String) : SubmitResult × List StoredAttempt :=
  match findOne store attemptId userId with
  | none => ({ status := 404, success := false }, store)
  | some attempt =>
    ((Stored.submitTest env now attempt).1,
      saveAttempt store (Stored.submitTest env now attempt).2)

/-- The handler `getAttemptData` from the load of the attempt on. -/
def Api.getAttemptData (env : Env) (now : Int) (store : List StoredAttempt)
    (attemptId userId : String) : ResumeResult × List StoredAttempt :=
  match findOne store attemptId userId with
  | none => ({ status := 404, success := false }, store)
  | some attempt =>
    ((Stored.getAttemptData env now attempt).1,
      saveAttempt store (Stored.getAttemptData env now attempt).2)

/-! ## Observations and calls -/

/-- Every section state of the list has `isLocked = true` exactly when it has
`isCompleted = true`. -/
def flagsAgree (states : List SectionState) : Prop :=
  ∀ s ∈ states, (s.isLocked = true ↔ s.isCompleted = true)

/-- The property `flagsAgree` of the section states of a document or a result, which
holds when there are none. -/
def flagsAgreeOpt (states : Option (List SectionState)) : Prop :=
  ∀ l, states = some l → flagsAgree l

/-- A call of one of the four operations of a running session, with its request body. -/
inductive Call where
  | saveResponse (req : SaveRequest)
  | syncProgress (req : SyncRequest)
  | transitionSection (req : TransitionRequest)
  | getAttemptData

/-- The document as saved by a call. -/
def Call.persisted (env : Env) (now : Int) (attempt : Attempt) : Call → Attempt
  | Call.saveResponse req => (MockTest.saveResponse env now attempt req).2
  | Call.syncProgress req => (MockTest.syncProgress env now attempt req).2
  | Call.transitionSection req => (MockTest.transitionSection env now attempt req).2
  | Call.getAttemptData => (MockTest.getAttemptData env now attempt).2

/-- The section states a call returns to the client, when its result carries them. -/
def Call.returned (env : Env) (now : Int) (attempt : Attempt) : Call → Option (List SectionState)
  | Call.saveResponse _ => none
  | Call.syncProgress req => (MockTest.syncProgress env now attempt req).1.sectionStates
  | Call.transitionSection req => (MockTest.transitionSection env now attempt req).1.sectionStates
  | Call.getAttemptData => (MockTest.getAttemptData env now attempt).1.sectionStates

/-! ## Example data -/

/-- The lower-case form of a hexadecimal digit, `none` for any other character. -/
def hexDigit (c : Char) : Option Char :=
  if c.isDigit then some c
  else if 'a' ≤ c ∧ c ≤ 'f' then some c
  else if 'A' ≤ c ∧ c ≤ 'F' then some (Char.ofNat (c.toNat + 32))
  else none

/-- The lower-case forms of a list of hexadecimal digits. -/
def hexDigits : List Char → Option (List Char)
  | [] => some []
  | c :: cs =>
    match hexDigit c, hexDigits cs with
    | some d, some ds => some (d :: ds)
    | _, _ => none

/-- The cast of a string of 24 hexadecimal digits, in either case, to an `ObjectId`,
whose `toString()` is the lower-case string; the instance of `castObjectId` used in the
examples. -/
def hexObjectId (s : String) : Option String :=
  if s.length = 24 then (hexDigits s.data).map String.mk else none

/-- The `ObjectId` of question 1 of section `A`. -/
def q1 : String := "64b0c0ffee00000000000001"

/-- The `ObjectId` of question 2 of section `A`. -/
def q2 : String := "64b0c0ffee00000000000002"

/-- The `ObjectId` of question 3 of section `A`. -/
def q3 : String := "64b0c0ffee00000000000003"

/-- The `ObjectId` of the question of section `B`. -/
def q4 : String := "64b0c0ffee00000000000004"

/-- An `ObjectId` of no question of the example test. -/
def q9 : String := "64b0c0ffee00000000000009"

/-- The id of question 1 written with upper-case hexadecimal digits. -/
def q1Upper : String := "64B0C0FFEE00000000000001"

/-- A ten-minute section with three cached questions. -/
def sectionA : SectionDef := { name := "A", duration := 10, questions := [q1, q2, q3] }

/-- A twenty-minute section with one cached question. -/
def sectionB : SectionDef := { name := "B", duration := 20, questions := [q4] }

/-- A test of the two sections `A` and `B`. -/
def exampleTest : Test := { sections := [sectionA, sectionB], duration := 30 }

/-- A question bank: questions 1, 2 and 3 single-select worth +4 with the signed penalty
-1, question 4 multi-select. -/
def exampleQuestion (questionId : String) : Option Question :=
  if questionId = q1 ∨ questionId = q2 ∨ questionId = q3 then
    some { sectionName := "A", questionType := "MCQ", correctAnswer := Answer.text "a",
           marks := { positive := 4, negative := -1 } }
  else if questionId = q4 then
    some { sectionName := "B", questionType := "MSQ", correctAnswer := Answer.options [1, 2],
           marks := { positive := 4, negative := -1 } }
  else none

/-- An environment that serves `exampleTest` under the id `t1` and no other test. -/
def exampleEnv : Env :=
  { findTest := fun id => if id = "t1" then some exampleTest else none,
    findQuestion := exampleQuestion,
    parseFloat := fun _ => none,
    castObjectId := hexObjectId }

/-- A question bank like `exampleQuestion` in which question 9 names the section `X`,
which is no section of the example test. -/
def strayEnv : Env :=
  { exampleEnv with
    findQuestion := fun questionId =>
      if questionId = q9 then
        some { sectionName := "X", questionType := "MCQ", correctAnswer := Answer.text "a",
               marks := { positive := 4, negative := -1 } }
      else exampleQuestion questionId }

/-- A paid test whose series has enrolled the development user and user `u1`. -/
def paidTest : Test :=
  { sections := [sectionA, sectionB], duration := 30, isFree := false,
    series := some { enrolledStudents := [devUserId, "u1"] } }

/-- An environment that serves `paidTest` under the id `t2`. -/
def paidEnv : Env :=
  { exampleEnv with findTest := fun id => if id = "t2" then some paidTest else none }

/-- A stored attempt of user `u1` on test `t1`, in progress, with the `_id` `a1`. -/
def storedAttempt : StoredAttempt :=
  { attemptId := "a1", userId := "u1", testPaperId := "t1", status := Status.IN_PROGRESS,
    startedAt := 0 }

/-- A stored attempt of the development user on the free test `t1`, in progress. -/
def devAttempt : StoredAttempt := { storedAttempt with userId := devUserId }

/-- The attempt that Start creates at time 500000 for user `u2` on test `t1`. -/
def startedAttempt : StoredAttempt := newAttempt 500000 exampleTest "t1" "u2" "a2"

/-- A stored attempt on the test `t0`, whose definition is no longer in the store, so
that `populate('testPaperId')` yields `null`. -/
def orphanAttempt : StoredAttempt :=
  { attemptId := "a3", userId := "u1", testPaperId := "t0", status := Status.IN_PROGRESS,
    startedAt := 0 }

/-- A request that answers question 1 of section `A` with `a`, the correct option. -/
def saveQ1 : SaveRequest := { questionId := q1, selectedAnswer := some (Answer.text "a") }

/-- A request that answers question 2 of section `A` with `b`, an incorrect option. -/
def saveQ2 : SaveRequest := { questionId := q2, selectedAnswer := some (Answer.text "b") }

/-- A request that leaves question 3 of section `A` blank. -/
def saveQ3 : SaveRequest := { questionId := q3, selectedAnswer := some (Answer.text "") }

/-- A request that answers question 9, which the example bank does not hold. -/
def orphanSave : SaveRequest := { questionId := q9, selectedAnswer := some (Answer.text "a") }

/-- A request that answers question 1, its id written in upper case. -/
def saveUpper : SaveRequest := { questionId := q1Upper, selectedAnswer := some (Answer.text "a") }

/-- A heartbeat that carries nothing. -/
def plainSync : SyncRequest := {}

/-- A heartbeat that claims the section `B`. -/
def claimB : SyncRequest := { currentSectionKey := some "B" }

/-- A heartbeat that carries an answer to question 1 and no section key. -/
def syncQ1 : SyncRequest :=
  { responses := some [some { questionId := some q1, selectedAnswer := some (Answer.text "a") }] }

/-- The heartbeat `syncQ1` with the client's view `[null]` of the section states. -/
def nullViewSync : SyncRequest :=
  { syncQ1 with sectionStates := some (ClientView.array [none]) }

/-- A heartbeat that carries an answer to question 9 and no section key. -/
def straySync : SyncRequest :=
  { responses := some [some { questionId := some q9, selectedAnswer := some (Answer.text "a") }] }

/-- A heartbeat that carries the section index 5 and no section key. -/
def forwardSync : SyncRequest := { currentSectionIndex := some 5 }

/-- A heartbeat that carries an answer to question 1, its id written in upper case. -/
def upperSync : SyncRequest :=
  { responses :=
      some [some { questionId := some q1Upper, selectedAnswer := some (Answer.text "a") }] }

/-- The transition from section `A` to section `B`. -/
def transitionAB : TransitionRequest := { fromSection := some "A", toSection := some "B" }

/-- A transition from section `A` to `X`, which is no section of the example test. -/
def transitionAX : TransitionRequest := { fromSection := some "A", toSection := some "X" }

/-- A multi-select question with the correct options 1 and 2. -/
def msqQuestion : Question :=
  { sectionName := "B", questionType := "MSQ", correctAnswer := Answer.options [1, 2],
    marks := { positive := 4, negative := -1 } }

/-- The started attempt after the three answers of the scoring scenario: question 1
answered correctly, question 2 answered incorrectly, question 3 left blank. -/
def answeredAttempt : StoredAttempt :=
  (Stored.saveResponse exampleEnv 530000
    (Stored.saveResponse exampleEnv 520000
      (Stored.saveResponse exampleEnv 510000 startedAttempt saveQ1).2 saveQ2).2 saveQ3).2

/-! ## Lookup lemmas -/

theorem toStored_hydrate (stored : StoredAttempt) : toStored (hydrate stored) = stored := by
  cases stored with
  | mk attemptId userId testPaperId status startedAt responses =>
    simp only [toStored, hydrate, List.map_map, StoredAttempt.mk.injEq, true_and]
    induction responses with
    | nil => rfl
    | cons r rest ih => simp [ih]

/-! ## Timing claims -/

/-- C2. The remaining seconds `max(0, duration*60 - floor((now - startedAt)/1000))` do not
increase with `now`, are exactly 0 at `startedAt` plus the duration, and are 0 at every
later time. -/
theorem remaining_antitone_zero (startedAt duration now₁ now₂ : Int) (h : now₁ ≤ now₂) :
    remaining startedAt duration now₁ = max 0 (duration * 60 - (now₁ - startedAt) / 1000) ∧
    remaining startedAt duration now₂ ≤ remaining startedAt duration now₁ ∧
    remaining startedAt duration (startedAt + duration * 60 * 1000) = 0 ∧
    (startedAt + duration * 60 * 1000 ≤ now₁ → remaining startedAt duration now₂ = 0) := by
  unfold remaining serverRemaining
  refine ⟨rfl, ?_, ?_, ?_⟩
  · omega
  · omega
  · intro h2; omega

/-- Witness of C2: a ten-minute section started at 0, read at 10:00 and at 10:01. -/
theorem remaining_antitone_zero_witness :
    (600000 : Int) ≤ 601000 ∧ remaining 0 10 601000 ≤ remaining 0 10 600000 ∧
    remaining 0 10 (0 + 10 * 60 * 1000) = 0 :=
  ⟨by decide, (remaining_antitone_zero 0 10 600000 601000 (by decide)).2.1,
    (remaining_antitone_zero 0 10 600000 601000 (by decide)).2.2.1⟩

/-! ## Scoring claims -/

theorem msqCorrect_eq_true_iff (selected correct : List Nat) :
    msqCorrect selected correct = true ↔ selected.Perm correct := by
  unfold msqCorrect
  rw [beq_iff_eq]
  constructor
  · intro h
    have h1 := List.perm_insertionSort (fun a b : Nat => a ≤ b) selected
    have h2 := List.perm_insertionSort (fun a b : Nat => a ≤ b) correct
    exact h1.symm.trans (h ▸ h2)
  · intro h
    have h1 := List.perm_insertionSort (fun a b : Nat => a ≤ b) selected
    have h2 := List.perm_insertionSort (fun a b : Nat => a ≤ b) correct
    exact List.eq_of_perm_of_sorted (r := fun a b : Nat => a ≤ b) ((h1.trans h).trans h2.symm)
      (List.sorted_insertionSort _ _) (List.sorted_insertionSort _ _)

/-- C8, as stated, fails: the selection `[1, 1, 2]` has the same set of options as the
correct answer `[1, 2]` and is judged incorrect. -/
theorem msq_same_set_judged_incorrect :
    (∀ x, x ∈ [1, 1, 2] ↔ x ∈ [1, 2]) ∧
    isCorrect exampleEnv msqQuestion (some (Answer.options [1, 1, 2])) = some false := by
  refine ⟨fun x => ?_, by decide⟩
  simp

/-- C8, amended. For a multi-select question Submit judges an array of selected options
correct exactly when it is a rearrangement of the array of correct options (the same
options with the same multiplicities), whatever the order in which either array is
stored; for arrays without repeated options this is equality of the two sets. -/
theorem msq_correct_iff_perm (env : Env) (question : Question) (selected correct : List Nat)
    (htype : question.questionType = "MSQ")
    (hcorrect : question.correctAnswer = Answer.options correct) :
    (isCorrect env question (some (Answer.options selected)) = some true ↔
      selected.Perm correct) ∧
    (isCorrect env question (some (Answer.options selected)) = some false ↔
      ¬ selected.Perm correct) ∧
    (∀ selected1 correct1 : List Nat, selected.Perm selected1 → correct.Perm correct1 →
      msqCorrect selected1 correct1 = msqCorrect selected correct) ∧
    (selected.Nodup → correct.Nodup →
      (isCorrect env question (some (Answer.options selected)) = some true ↔
        ∀ x, x ∈ selected ↔ x ∈ correct)) := by
  have hval : isCorrect env question (some (Answer.options selected)) =
      some (msqCorrect selected correct) := by
    simp [isCorrect, htype, hcorrect]
  rw [hval]
  have hiff := msqCorrect_eq_true_iff selected correct
  refine ⟨?_, ?_, ?_, ?_⟩
  · simp [hiff]
  · simp [← hiff]
  · intro selected1 correct1 hs hc
    rw [Bool.eq_iff_iff, msqCorrect_eq_true_iff, msqCorrect_eq_true_iff]
    constructor
    · intro h; exact (hs.trans h).trans hc.symm
    · intro h; exact (hs.symm.trans h).trans hc
  · intro hn1 hn2
    simp only [Option.some.injEq, hiff]
    exact List.perm_ext_iff_of_nodup hn1 hn2

/-- Witness of the amended C8: the selection `[2, 1]` against the correct answer `[1, 2]`. -/
theorem msq_correct_iff_perm_witness :
    isCorrect exampleEnv msqQuestion (some (Answer.options [2, 1])) = some true ∧
    (isCorrect exampleEnv msqQuestion (some (Answer.options [2, 1])) = some true ↔
      [2, 1].Perm [1, 2]) :=
  ⟨by decide, (msq_correct_iff_perm exampleEnv msqQuestion [2, 1] [1, 2] rfl rfl).1⟩

/-! ## SyncProgress navigation -/

theorem isValidBackNav_false_of_not_started (attempt : Attempt) (test : Test)
    (key : Option String)
    (h : (findStateOpt attempt.sectionStates key).bind (fun s => s.startedAt) = none) :
    isValidBackNav attempt test key = false := by
  unfold isValidBackNav
  cases hf : findStateOpt attempt.sectionStates key with
  | none => rfl
  | some s =>
    have hs : s.startedAt = none := by simpa [hf] using h
    simp [hs]

/-- C11. When the client claims a `currentSectionKey` that differs from the server's
current section and names a section that was never started (its state is missing or has no
`startedAt`), SyncProgress is rejected and the persisted attempt, its current section
pointer included, is unchanged. -/
theorem syncProgress_rejects_unstarted (env : Env) (now : Int) (attempt : Attempt)
    (req : SyncRequest)
    (hclaim : truthyKey req.currentSectionKey = true)
    (hdiff : req.currentSectionKey ≠ attempt.currentSectionKey)
    (hnever : (findStateOpt attempt.sectionStates req.currentSectionKey).bind
      (fun s => s.startedAt) = none) :
    (syncProgress env now attempt req).1.success = false ∧
    ((syncProgress env now attempt req).1.status = 400 ∨
      (syncProgress env now attempt req).1.status = 404) ∧
    (syncProgress env now attempt req).2 = attempt ∧
    (syncProgress env now attempt req).2.currentSectionKey = attempt.currentSectionKey ∧
    (syncProgress env now attempt req).2.currentSectionIndex = attempt.currentSectionIndex := by
  unfold syncProgress
  split
  · exact ⟨rfl, Or.inl rfl, rfl, rfl, rfl⟩
  · cases hT : env.findTest attempt.testPaperId with
    | none => exact ⟨rfl, Or.inr rfl, rfl, rfl, rfl⟩
    | some test =>
      have hnav := isValidBackNav_false_of_not_started attempt test req.currentSectionKey hnever
      have hne : (req.currentSectionKey != attempt.currentSectionKey) = true := by
        simpa using hdiff
      simp [hclaim, hne, hnav]

/-- Witness of C11: on the attempt that Start created, as loaded from the collection, the
client claims the never-started section `B`. -/
theorem syncProgress_rejects_unstarted_witness :
    (syncProgress exampleEnv 680000 (hydrate startedAttempt) claimB).1.success = false ∧
    (syncProgress exampleEnv 680000 (hydrate startedAttempt) claimB).2
      = hydrate startedAttempt :=
  have h := syncProgress_rejects_unstarted exampleEnv 680000 (hydrate startedAttempt)
    claimB (by decide) (by decide) (by decide)
  ⟨h.1, h.2.2.1⟩

/-! ## Start claims -/

theorem startTestAttempt_access (env : Env) (now : Int) (store : List StoredAttempt)
    (testId userId newId : String) (test : Test) (enrolled : Bool)
    (hvalid : env.isValidObjectId testId = true ∧ env.isValidObjectId userId = true)
    (hTest : env.findTest testId = some test)
    (hactive : test.isActive = true ∧ test.isPublished = true)
    (henrolled : isEnrolled test userId = some enrolled) :
    startTestAttempt env now store testId userId newId =
      if !test.isFree && !enrolled then ({ status := 403, success := false }, store)
      else
        match (if userId != devUserId then
            store.find? (fun a => a.userId == userId && a.testPaperId == testId)
          else none) with
        | some existing =>
          ({ status := 200, success := true, attempt := some existing, resuming := true },
            store)
        | none =>
          match test.series with
          | none => ({ status := 500, success := false }, store)
          | some _ =>
            ({ status := 201, success := true,
               attempt := some (newAttempt now test testId userId newId) },
             store ++ [newAttempt now test testId userId newId]) := by
  simp [startTestAttempt, hvalid.1, hvalid.2, hTest, hactive.1, hactive.2, henrolled]

/-- C15, as stated, fails: the development user already has an attempt in progress on the
free test `t1`, and Start creates a second attempt instead of returning the stored one. -/
theorem startTestAttempt_dev_creates_again :
    devAttempt.userId = devUserId ∧ devAttempt.testPaperId = "t1" ∧
    devAttempt.status = Status.IN_PROGRESS ∧
    (startTestAttempt exampleEnv 500000 [devAttempt] "t1" devUserId "a2").1.status = 201 ∧
    (startTestAttempt exampleEnv 500000 [devAttempt] "t1" devUserId "a2").1.attempt
      ≠ some devAttempt ∧
    (startTestAttempt exampleEnv 500000 [devAttempt] "t1" devUserId "a2").2.length = 2 := by
  decide

/-- C15, amended. For every owner other than the development user, with well-formed ids, on
an active and published test with a series document to which the owner has access (the
test is free or the owner is enrolled), if the collection holds an attempt by that owner
on that test, Start answers 200 with `resuming` and the first such stored attempt,
unchanged, and the collection of attempts is unchanged; that attempt is the given one when
the owner has no other attempt on the test. -/
theorem startTestAttempt_idempotent (env : Env) (now : Int) (store : List StoredAttempt)
    (testId userId newId : String) (test : Test) (series : Series) (existing : StoredAttempt)
    (hvalid : env.isValidObjectId testId = true ∧ env.isValidObjectId userId = true)
    (hTest : env.findTest testId = some test)
    (hactive : test.isActive = true ∧ test.isPublished = true)
    (hseries : test.series = some series)
    (haccess : test.isFree = true ∨ userId ∈ series.enrolledStudents)
    (hdev : userId ≠ devUserId)
    (hmem : existing ∈ store)
    (howner : existing.userId = userId ∧ existing.testPaperId = testId) :
    ∃ found, found ∈ store ∧ found.userId = userId ∧ found.testPaperId = testId ∧
      startTestAttempt env now store testId userId newId =
        ({ status := 200, success := true, attempt := some found, resuming := true }, store) ∧
      ((∀ a ∈ store, a.userId = userId → a.testPaperId = testId → a = existing) →
        found = existing) := by
  have henrolled : isEnrolled test userId =
      some (series.enrolledStudents.any (fun studentId => studentId == userId)) := by
    simp [isEnrolled, hdev, hseries]
  have hfind : ∃ found, store.find? (fun a => a.userId == userId && a.testPaperId == testId)
      = some found := by
    cases hf : store.find? (fun a => a.userId == userId && a.testPaperId == testId) with
    | some found => exact ⟨found, rfl⟩
    | none =>
      rw [List.find?_eq_none] at hf
      have := hf existing hmem
      simp [howner.1, howner.2] at this
  obtain ⟨found, hfound⟩ := hfind
  have hprop := List.find?_some hfound
  simp only [Bool.and_eq_true, beq_iff_eq] at hprop
  have hin := List.mem_of_find?_eq_some hfound
  refine ⟨found, hin, hprop.1, hprop.2, ?_, fun huniq => huniq found hin hprop.1 hprop.2⟩
  rw [startTestAttempt_access env now store testId userId newId test _ hvalid hTest hactive
    henrolled]
  have hgate : (!test.isFree && !series.enrolledStudents.any (fun studentId => studentId == userId))
      = false := by
    rcases haccess with h | h
    · simp [h]
    · have : series.enrolledStudents.any (fun studentId => studentId == userId) = true := by
        simp only [List.any_eq_true, beq_iff_eq]
        exact ⟨userId, h, rfl⟩
      simp [this]
  have hne : (userId != devUserId) = true := by simpa using hdev
  simp [hgate, hne, hfound]

/-- Witness of the amended C15: user `u1` starts test `t1` again while the example attempt
is stored. -/
theorem startTestAttempt_idempotent_witness :
    startTestAttempt exampleEnv 500000 [storedAttempt] "t1" "u1" "a2" =
      ({ status := 200, success := true, attempt := some storedAttempt, resuming := true },
        [storedAttempt]) := by
  obtain ⟨found, hmem, _, _, hres, _⟩ := startTestAttempt_idempotent exampleEnv 500000
    [storedAttempt] "t1" "u1" "a2" exampleTest {} storedAttempt ⟨rfl, rfl⟩ rfl ⟨rfl, rfl⟩ rfl
    (Or.inl rfl) (by decide) (by simp) ⟨rfl, rfl⟩
  have : found = storedAttempt := by simpa using hmem
  rw [hres, this]

/-- C17, as stated, fails: the development user is enrolled in the series of the active,
published, paid test `t2`, and Start answers Forbidden. -/
theorem startTestAttempt_dev_enrolled_forbidden :
    paidTest.isActive = true ∧ paidTest.isPublished = true ∧ paidTest.isFree = false ∧
    (paidTest.series.map (fun s => decide (devUserId ∈ s.enrolledStudents))) = some true ∧
    (startTestAttempt paidEnv 500000 [] "t2" devUserId "a2").1.status = 403 := by
  decide

/-- C17, amended. With well-formed test and user ids: a missing, inactive or unpublished
test yields NotFound; on an active, published test with a series document, a caller other
than the development user is answered Forbidden if and only if the test is not marked free
and the caller is not enrolled in the series; the development user is answered Forbidden if
and only if the test is not marked free, enrolled or not. -/
theorem startTestAttempt_access_errors (env : Env) (now : Int) (store : List StoredAttempt)
    (testId userId newId : String)
    (hvalid : env.isValidObjectId testId = true ∧ env.isValidObjectId userId = true) :
    ((env.findTest testId = none ∨
        ∃ test, env.findTest testId = some test ∧
          (test.isActive = false ∨ test.isPublished = false)) →
      (startTestAttempt env now store testId userId newId).1.status = 404 ∧
      (startTestAttempt env now store testId userId newId).2 = store) ∧
    (∀ test series, env.findTest testId = some test →
      test.isActive = true → test.isPublished = true → test.series = some series →
      userId ≠ devUserId →
      ((startTestAttempt env now store testId userId newId).1.status = 403 ↔
        (test.isFree = false ∧ userId ∉ series.enrolledStudents))) ∧
    (∀ test, env.findTest testId = some test →
      test.isActive = true → test.isPublished = true → userId = devUserId →
      ((startTestAttempt env now store testId userId newId).1.status = 403 ↔
        test.isFree = false)) := by
  refine ⟨?_, ?_, ?_⟩
  · rintro (hnone | ⟨test, hT, hoff⟩)
    · simp [startTestAttempt, hvalid.1, hvalid.2, hnone]
    · rcases hoff with h | h
      · simp [startTestAttempt, hvalid.1, hvalid.2, hT, h]
      · simp [startTestAttempt, hvalid.1, hvalid.2, hT, h]
  · intro test series hT ha hp hseries hdev
    have hiff : (∀ x ∈ series.enrolledStudents, ¬ x = userId) ↔
        userId ∉ series.enrolledStudents :=
      ⟨fun h hm => h userId hm rfl, fun h x hx hxe => h (hxe ▸ hx)⟩
    rw [← hiff]
    cases hfree : test.isFree <;>
      by_cases hall : ∀ x ∈ series.enrolledStudents, ¬ x = userId <;>
      cases hfind : store.find? (fun a => a.userId == userId && a.testPaperId == testId) <;>
      simp [startTestAttempt, hvalid.1, hvalid.2, hT, ha, hp, isEnrolled, hdev, hseries,
        hfree, hfind] <;>
      first
        | (simp only [if_pos hall]; simpa using hall)
        | (simp only [if_neg hall]; simpa using hall)
  · intro test hT ha hp hdev
    subst hdev
    cases hfree : test.isFree <;> cases hs : test.series <;>
      simp [startTestAttempt, hvalid.1, hvalid.2, hT, ha, hp, isEnrolled, hfree, hs]

/-- Witness of the amended C17: user `u9`, not enrolled, starts the paid test `t2`. -/
theorem startTestAttempt_access_errors_witness :
    (startTestAttempt paidEnv 500000 [] "t2" "u9" "a2").1.status = 403 ∧
    (startTestAttempt paidEnv 500000 [] "t9" "u9" "a2").1.status = 404 :=
  have h := startTestAttempt_access_errors paidEnv 500000 [] "t2" "u9" "a2" ⟨rfl, rfl⟩
  have h9 := startTestAttempt_access_errors paidEnv 500000 [] "t9" "u9" "a2" ⟨rfl, rfl⟩
  ⟨(h.2.1 paidTest { enrolledStudents := [devUserId, "u1"] } rfl rfl rfl rfl (by decide)).mpr
      ⟨rfl, by decide⟩,
    (h9.1 (Or.inl rfl)).1⟩

/-! ## Ownership -/

theorem findOne_not_owner (store : List StoredAttempt) (attempt : StoredAttempt)
    (caller : String)
    (hmem : attempt ∈ store) (hnodup : (store.map (fun a => a.attemptId)).Nodup)
    (hne : caller ≠ attempt.userId) :
    findOne store attempt.attemptId caller = none := by
  unfold findOne
  rw [List.find?_eq_none]
  intro a ha hmatch
  simp only [Bool.and_eq_true, beq_iff_eq] at hmatch
  have heq : a = attempt := List.inj_on_of_nodup_map hnodup ha hmem hmatch.1
  rw [heq] at hmatch
  exact hne hmatch.2.symm

/-- C19. Ownership scoping: with `_id`s unique in the collection, for every stored attempt
and every caller other than its owner, SaveResponse, SyncProgress, TransitionSection,
Submit and Resume on that attempt all answer 404 and leave the collection, that attempt
included, unchanged. -/
theorem not_owner_not_found (env : Env) (now : Int) (store : List StoredAttempt)
    (attempt : StoredAttempt)
    (caller : String) (save : SaveRequest) (sync : SyncRequest) (move : TransitionRequest)
    (hmem : attempt ∈ store) (hnodup : (store.map (fun a => a.attemptId)).Nodup)
    (hne : caller ≠ attempt.userId) :
    Api.saveResponse env now store attempt.attemptId caller save =
      ({ status := 404, success := false }, store) ∧
    Api.syncProgress env now store attempt.attemptId caller sync =
      ({ status := 404, success := false }, store) ∧
    Api.transitionSection env now store attempt.attemptId caller move =
      ({ status := 404, success := false }, store) ∧
    Api.submitTest env now store attempt.attemptId caller =
      ({ status := 404, success := false }, store) ∧
    Api.getAttemptData env now store attempt.attemptId caller =
      ({ status := 404, success := false }, store) := by
  have h := findOne_not_owner store attempt caller hmem hnodup hne
  simp [Api.saveResponse, Api.syncProgress, Api.transitionSection, Api.submitTest,
    Api.getAttemptData, h]

/-- Witness of C19: user `u2` calls the five operations on the stored attempt of `u1`. -/
theorem not_owner_not_found_witness :
    (Api.saveResponse exampleEnv 1000 [storedAttempt] "a1" "u2" saveQ1).1.status = 404 ∧
    (Api.saveResponse exampleEnv 1000 [storedAttempt] "a1" "u2" saveQ1).2 = [storedAttempt] ∧
    (Api.saveResponse exampleEnv 1000 [storedAttempt] "a1" "u1" saveQ1).1.status = 200 :=
  have h : Api.saveResponse exampleEnv 1000 [storedAttempt] "a1" "u2" saveQ1 =
      ({ status := 404, success := false }, [storedAttempt]) :=
    (not_owner_not_found exampleEnv 1000 [storedAttempt] storedAttempt "u2" saveQ1
      syncQ1 transitionAB (by simp) (by simp) (by decide)).1
  ⟨by rw [h], by rw [h], by decide⟩

/-! ## Error claims -/

theorem enforceSectionTime_unchanged (env : Env) (now : Int) (attempt : Attempt)
    (questionId : String) (early : SaveResult × Attempt)
    (h : enforceSectionTime env now attempt questionId = some early)
    (hflag : early.1.sectionLocked = false) : early.2 = attempt := by
  unfold enforceSectionTime at h
  repeat' split at h
  all_goals first
    | contradiction
    | (injection h with h; subst h; first | rfl | (simp at hflag))

/-- C22. No partial commit: a SaveResponse call that fails without the `sectionLocked` flag,
and a SyncProgress, TransitionSection or Submit call that fails, leaves the persisted
attempt exactly as it was before the call. -/
theorem failed_call_no_commit (env : Env) (now : Int) (attempt : Attempt)
    (save : SaveRequest) (sync : SyncRequest) (move : TransitionRequest) :
    ((saveResponse env now attempt save).1.success = false →
      (saveResponse env now attempt save).1.sectionLocked = false →
      (saveResponse env now attempt save).2 = attempt) ∧
    ((syncProgress env now attempt sync).1.success = false →
      (syncProgress env now attempt sync).2 = attempt) ∧
    ((transitionSection env now attempt move).1.success = false →
      (transitionSection env now attempt move).2 = attempt) ∧
    ((submitTest env now attempt).1.success = false →
      (submitTest env now attempt).2 = attempt) := by
  refine ⟨?_, ?_, ?_, ?_⟩
  · unfold saveResponse
    split
    · intro _ _; rfl
    · split
      · next early h =>
        intro _ hflag
        exact enforceSectionTime_unchanged env now attempt _ early h hflag
      · split
        · intro _ _; rfl
        · intro h; simp at h
  · unfold syncProgress
    simp only
    repeat' split
    all_goals first
      | (intro _; rfl)
      | (intro h; simp at h)
  · unfold transitionSection
    simp only
    repeat' split
    all_goals first
      | (intro _; rfl)
      | (intro h; simp at h)
  · unfold submitTest
    repeat' split
    all_goals first
      | (intro _; rfl)
      | (intro h; simp at h)

/-- Witness of C22: on the attempt that Start created, as loaded from the collection, a
transition to the unknown section `X` fails and persists nothing; a save of the unknown
question 9 fails and persists nothing. -/
theorem failed_call_no_commit_witness :
    (transitionSection exampleEnv 680000 (hydrate startedAttempt) transitionAX).1.success
      = false ∧
    (transitionSection exampleEnv 680000 (hydrate startedAttempt) transitionAX).2
      = hydrate startedAttempt ∧
    (saveResponse exampleEnv 680000 (hydrate startedAttempt) orphanSave).2
      = hydrate startedAttempt :=
  have h := failed_call_no_commit exampleEnv 680000 (hydrate startedAttempt) orphanSave
    plainSync transitionAX
  ⟨by decide, h.2.2.1 (by decide), h.1 (by decide) (by decide)⟩

/-! ## The store of the schema -/

/-- C16 at the failing input: Start by user `u2` on the two-section test `t1` at time
500000 answers 201; the controller builds two section states and the pointer `A` for the
constructor, and the attempt created, in the reply and in the collection, has the paths
of the schema only: loaded again, it has no section states and no current section
pointer. -/
theorem startTestAttempt_drops_session_fields :
    (startTestAttempt exampleEnv 500000 [storedAttempt] "t1" "u2" "a2").1.status = 201 ∧
    (startTestAttempt exampleEnv 500000 [storedAttempt] "t1" "u2" "a2").1.attempt =
      some startedAttempt ∧
    (startTestAttempt exampleEnv 500000 [storedAttempt] "t1" "u2" "a2").2 =
      [storedAttempt, startedAttempt] ∧
    startedAttempt =
      { attemptId := "a2", userId := "u2", testPaperId := "t1", status := Status.IN_PROGRESS,
        startedAt := 500000, responses := [] } ∧
    (newAttemptFields 500000 exampleTest "t1" "u2" "a2").sectionStates =
      some [{ sectionKey := some "A", startedAt := some 500000, remainingSeconds := 600 },
            { sectionKey := some "B", startedAt := none, remainingSeconds := 1200 }] ∧
    (newAttemptFields 500000 exampleTest "t1" "u2" "a2").currentSectionKey = some "A" ∧
    (hydrate startedAttempt).sectionStates = none ∧
    (hydrate startedAttempt).currentSectionKey = none ∧
    (hydrate startedAttempt).currentSectionIndex = none := by
  decide

/-- C3 at the failing input: three minutes after Start began section `A` (ten minutes),
a heartbeat succeeds and returns `A` as never started with the full 600 seconds, where
the clock gives 420; the stored attempt is the one Start created. -/
theorem syncProgress_returns_full_duration :
    remaining 500000 10 680000 = 420 ∧
    (Stored.syncProgress exampleEnv 680000 startedAttempt plainSync).1 =
      { status := 200, success := true, lastSyncedAt := some 680000,
        sectionStates :=
          some [{ sectionKey := some "A", startedAt := none, remainingSeconds := 600 },
                { sectionKey := some "B", startedAt := none, remainingSeconds := 1200 }] } ∧
    (Stored.syncProgress exampleEnv 680000 startedAttempt plainSync).2 = startedAttempt := by
  decide

/-- C5 at the failing input: at 10:01 of the ten-minute section `A` that Start began,
SaveResponse on question 1 of `A` answers 200 without the `sectionLocked` flag and stores
a response for the question. -/
theorem saveResponse_after_expiry_accepted :
    serverRemaining 500000 (durationOr60 sectionA.duration * 60) 1101000 = 0 ∧
    (Stored.saveResponse exampleEnv 1101000 startedAttempt saveQ1).1 =
      { status := 200, success := true, sectionLocked := false } ∧
    (Stored.saveResponse exampleEnv 1101000 startedAttempt saveQ1).2 =
      { startedAttempt with responses := [{ questionId := q1 }] } := by
  decide

/-- C13 at the failing input: at 10:01 of the ten-minute section `A` that Start began, a
heartbeat with an answer to question 1 of `A` succeeds, returns `A` unlocked with 600
seconds and stores a response for the question. -/
theorem syncProgress_after_expiry_stores :
    remaining 500000 10 1101000 = 0 ∧
    (Stored.syncProgress exampleEnv 1101000 startedAttempt syncQ1).1.success = true ∧
    (Stored.syncProgress exampleEnv 1101000 startedAttempt syncQ1).1.sectionStates =
      some [{ sectionKey := some "A", startedAt := none, remainingSeconds := 600 },
            { sectionKey := some "B", startedAt := none, remainingSeconds := 1200 }] ∧
    (Stored.syncProgress exampleEnv 1101000 startedAttempt syncQ1).2.responses =
      [{ questionId := q1 }] := by
  decide

/-- C18 at the failing input: at 10:01 of the ten-minute section `A` that Start began,
Resume answers 200 with an empty list of section states and saves nothing. -/
theorem getAttemptData_after_expiry_empty :
    serverRemaining 500000 (durationOr60 sectionA.duration * 60) 1101000 = 0 ∧
    Stored.getAttemptData exampleEnv 1101000 startedAttempt =
      ({ status := 200, success := true, sectionStates := some [], timeRemaining := none,
         responses := [] }, startedAttempt) := by
  decide

/-- C26 at the failing input: three minutes after Start, on the same stored attempt and at
the same clock value, SyncProgress returns one section state per section of the test and
Resume returns none. -/
theorem resume_differs_from_sync :
    ((Stored.syncProgress exampleEnv 680000 startedAttempt plainSync).1.sectionStates.map
      (fun l => l.map (fun s => (s.sectionKey, s.remainingSeconds)))) =
      some [(some "A", 600), (some "B", 1200)] ∧
    (Stored.getAttemptData exampleEnv 680000 startedAttempt).1.sectionStates = some [] := by
  decide

/-- C9 at the failing input: three minutes after Start, TransitionSection from `A` to `B`
answers 500 and saves nothing; the heartbeat that follows returns `A` unlocked with 600
seconds. -/
theorem transitionSection_does_not_lock :
    Stored.transitionSection exampleEnv 680000 startedAttempt transitionAB =
      ({ status := 500, success := false }, startedAttempt) ∧
    ((Stored.syncProgress exampleEnv 681000
        (Stored.transitionSection exampleEnv 680000 startedAttempt transitionAB).2
        plainSync).1.sectionStates.map (fun l => l.head?)) =
      some (some { sectionKey := some "A", startedAt := none, remainingSeconds := 600,
                   isLocked := false, isCompleted := false, completedAt := none }) := by
  decide

/-- C10 at the failing input: three minutes after Start, TransitionSection from `A` to the
never-started section `B` returns no section states and no current section, and the
document loaded afterwards has no state for `B`. -/
theorem transitionSection_does_not_start :
    (Stored.transitionSection exampleEnv 680000 startedAttempt transitionAB).1.success
      = false ∧
    (Stored.transitionSection exampleEnv 680000 startedAttempt transitionAB).1.sectionStates
      = none ∧
    (Stored.transitionSection exampleEnv 680000 startedAttempt transitionAB).1.currentSectionKey
      = none ∧
    findStateOpt
      (hydrate (Stored.transitionSection exampleEnv 680000 startedAttempt
        transitionAB).2).sectionStates (some "B") = none := by
  decide

/-- C28 at the failing input: three minutes after Start, Submit answers 500 without a
`timeSpent` and saves nothing. -/
theorem submitTest_no_timeSpent :
    ((680000 : Int) - 500000) / (1000 * 60) = 3 ∧
    Stored.submitTest exampleEnv 680000 startedAttempt =
      ({ status := 500, success := false, score := none, timeSpent := none },
        startedAttempt) := by
  decide

/-- C7 at the failing input: after the answers of the scoring scenario (question 1
correct, question 2 incorrect, question 3 blank) the stored responses keep the question
ids only; the scoring loop of Submit counts none of them and Submit answers 500 without
a score. -/
theorem submitTest_scenario_fails :
    answeredAttempt.responses =
      [{ questionId := q1 }, { questionId := q2 }, { questionId := q3 }] ∧
    (computeScore exampleEnv (hydrate answeredAttempt).responses).map (fun p => p.1) =
      some { totalScore := 0, positiveMarks := 0, negativeMarks := 0 } ∧
    Stored.submitTest exampleEnv 680000 answeredAttempt =
      ({ status := 500, success := false, score := none }, answeredAttempt) := by
  decide

/-! ## SaveResponse and SyncProgress on unattributed questions -/

/-- C4 at the failing input: the test definition of the attempt is no longer in the store;
SaveResponse on question 9, which resolves to no section, answers 200 and stores a
response for it, where SyncProgress on the same attempt answers 404. -/
theorem saveResponse_without_test_accepted :
    exampleEnv.findTest orphanAttempt.testPaperId = none ∧
    Stored.saveResponse exampleEnv 180000 orphanAttempt orphanSave =
      ({ status := 200, success := true },
        { orphanAttempt with responses := [{ questionId := q9 }] }) ∧
    Stored.syncProgress exampleEnv 180000 orphanAttempt straySync =
      ({ status := 404, success := false }, orphanAttempt) := by
  decide

/-- C23 at the failing input: the Question Bank names the section `X` for question 9, and
`X` is no section of the test; SaveResponse rejects the answer with `SECTION_NOT_FOUND`
and stores nothing, while SyncProgress succeeds and stores a response for the question. -/
theorem syncProgress_stores_stray_question :
    questionSection strayEnv exampleTest q9 = some none ∧
    questionSectionName strayEnv exampleTest q9 = some (some "X") ∧
    Stored.saveResponse strayEnv 680000 startedAttempt orphanSave =
      ({ status := 403, success := false, error := some "SECTION_NOT_FOUND" },
        startedAttempt) ∧
    (Stored.syncProgress strayEnv 680000 startedAttempt straySync).1.success = true ∧
    (Stored.syncProgress strayEnv 680000 startedAttempt straySync).2.responses =
      [{ questionId := q9 }] := by
  decide

/-- C12 at the failing input: two heartbeats that differ only in the field
`sectionStates`, absent in one and `[null]` in the other; the first answers 200 and
stores the answer to question 1, the second answers 500 and stores nothing. -/
theorem syncProgress_reads_client_view :
    nullViewSync = { syncQ1 with sectionStates := some (ClientView.array [none]) } ∧
    (Stored.syncProgress exampleEnv 680000 startedAttempt syncQ1).1.status = 200 ∧
    (Stored.syncProgress exampleEnv 680000 startedAttempt syncQ1).2.responses =
      [{ questionId := q1 }] ∧
    Stored.syncProgress exampleEnv 680000 startedAttempt nullViewSync =
      ({ status := 500, success := false }, startedAttempt) := by
  decide

/-- C24 at the failing input: a heartbeat without a section key carries the section index
5; SyncProgress succeeds and saves the document with `currentSectionIndex = 5`, which was
undefined (read as 0) on the loaded document; the collection keeps no index. -/
theorem syncProgress_index_forward :
    (hydrate startedAttempt).currentSectionIndex = none ∧
    (syncProgress exampleEnv 680000 (hydrate startedAttempt) forwardSync).1.success = true ∧
    (syncProgress exampleEnv 680000 (hydrate startedAttempt) forwardSync).2.currentSectionIndex
      = some 5 ∧
    (Stored.syncProgress exampleEnv 680000 startedAttempt forwardSync).2 = startedAttempt := by
  decide

/-! ## The response ledger -/

/-- C20 at the failing input: after Start, two SaveResponse calls send the id of question
1 in upper-case hexadecimal digits; both answer 200 and the stored ledger holds two
responses with the same `questionId`. -/
theorem saveResponse_twice_duplicates :
    hexObjectId q1Upper = some q1 ∧
    (Stored.saveResponse exampleEnv 510000 startedAttempt saveUpper).1.status = 200 ∧
    (Stored.saveResponse exampleEnv 520000
      (Stored.saveResponse exampleEnv 510000 startedAttempt saveUpper).2 saveUpper).1.status
      = 200 ∧
    (Stored.saveResponse exampleEnv 520000
      (Stored.saveResponse exampleEnv 510000 startedAttempt saveUpper).2 saveUpper).2.responses
      = [{ questionId := q1 }, { questionId := q1 }] := by
  decide

/-- C25 at the failing input: a heartbeat that answers question 1 under its id in
upper-case hexadecimal digits; applied once at minute 3 it leaves one stored response,
applied a second time at the same clock value it leaves two. -/
theorem syncProgress_retry_duplicates :
    (Stored.syncProgress exampleEnv 680000 startedAttempt upperSync).2.responses =
      [{ questionId := q1 }] ∧
    (Stored.syncProgress exampleEnv 680000
      (Stored.syncProgress exampleEnv 680000 startedAttempt upperSync).2 upperSync).2.responses
      = [{ questionId := q1 }, { questionId := q1 }] := by
  decide

/-! ## TransitionSection on a stored attempt -/

theorem transitionSection_hydrate (env : Env) (now : Int) (stored : StoredAttempt)
    (req : TransitionRequest) :
    transitionSection env now (hydrate stored) req =
      if stored.status = Status.COMPLETED ∨ stored.status = Status.EXPIRED then
        ({ status := 400, success := false }, hydrate stored)
      else ({ status := 500, success := false }, hydrate stored) := by
  unfold transitionSection
  simp only [hydrate]

/-- C27. TransitionSection on a stored attempt fails with status 400 or 500 and leaves the
stored attempt as it was, for every request: so it does for every request whose
`toSection` is not the name of a section of the attempt's test, a request without
`toSection` included. -/
theorem transitionSection_unknown_to_fails (env : Env) (now : Int) (stored : StoredAttempt)
    (req : TransitionRequest) :
    (Stored.transitionSection env now stored req).1.success = false ∧
    ((Stored.transitionSection env now stored req).1.status = 400 ∨
      (Stored.transitionSection env now stored req).1.status = 500) ∧
    (Stored.transitionSection env now stored req).2 = stored := by
  unfold Stored.transitionSection
  rw [transitionSection_hydrate]
  split
  · exact ⟨rfl, Or.inl rfl, toStored_hydrate stored⟩
  · exact ⟨rfl, Or.inr rfl, toStored_hydrate stored⟩

/-! ## The flags of a section state -/

theorem findState_mem {l : List SectionState} {k : Option String} {s : SectionState}
    (h : findState l k = some s) : s ∈ l := by
  unfold findState at h
  exact List.mem_of_find?_eq_some h

theorem mem_modifyFirst_elim {α : Type} (p : α → Bool) (f : α → α) (l : List α) (y : α)
    (hy : y ∈ modifyFirst p f l) : y ∈ l ∨ ∃ x ∈ l, y = f x := by
  induction l with
  | nil => cases hy
  | cons x xs ih =>
    by_cases hp : p x = true
    · have hm : modifyFirst p f (x :: xs) = f x :: xs := by simp [modifyFirst, hp]
      rw [hm] at hy
      rcases List.mem_cons.mp hy with h | h
      · exact Or.inr ⟨x, List.mem_cons_self _ _, h⟩
      · exact Or.inl (List.mem_cons_of_mem _ h)
    · have hm : modifyFirst p f (x :: xs) = x :: modifyFirst p f xs := by
        simp [modifyFirst, hp]
      rw [hm] at hy
      rcases List.mem_cons.mp hy with h | h
      · exact Or.inl (by rw [h]; exact List.mem_cons_self _ _)
      · rcases ih h with h1 | ⟨z, hz, hzy⟩
        · exact Or.inl (List.mem_cons_of_mem _ h1)
        · exact Or.inr ⟨z, List.mem_cons_of_mem _ hz, hzy⟩

theorem flagsAgree_modifyFirst (p : SectionState → Bool) (f : SectionState → SectionState)
    (hf : ∀ s, (s.isLocked = true ↔ s.isCompleted = true) →
      ((f s).isLocked = true ↔ (f s).isCompleted = true))
    (l : List SectionState) (h : flagsAgree l) : flagsAgree (modifyFirst p f l) := by
  intro y hy
  rcases mem_modifyFirst_elim p f l y hy with h1 | ⟨x, hx, hxy⟩
  · exact h y h1
  · rw [hxy]; exact hf x (h x hx)

theorem flagsAgree_append (l : List SectionState) (x : SectionState) (h : flagsAgree l)
    (hx : x.isLocked = true ↔ x.isCompleted = true) : flagsAgree (l ++ [x]) := by
  intro y hy
  rcases List.mem_append.mp hy with h1 | h1
  · exact h y h1
  · rw [List.mem_singleton.mp h1]; exact hx

theorem flagsAgree_map (f : SectionState → SectionState)
    (hf : ∀ s, (s.isLocked = true ↔ s.isCompleted = true) →
      ((f s).isLocked = true ↔ (f s).isCompleted = true))
    (l : List SectionState) (h : flagsAgree l) : flagsAgree (l.map f) := by
  intro y hy
  obtain ⟨x, hx, hxy⟩ := List.mem_map.mp hy
  rw [← hxy]; exact hf x (h x hx)

theorem flagsAgreeOpt_none : flagsAgreeOpt none := by
  intro l hl
  cases hl

theorem flagsAgreeOpt_some (l : List SectionState) : flagsAgreeOpt (some l) ↔ flagsAgree l := by
  constructor
  · intro h; exact h l rfl
  · intro h l1 hl1
    cases hl1
    exact h

theorem validatedState_flags (now : Int) (states : Option (List SectionState))
    (d : SectionDef) (h : flagsAgreeOpt states) :
    ((validatedState now states d).isLocked = true ↔
      (validatedState now states d).isCompleted = true) := by
  unfold validatedState
  split
  · next existingState hfind =>
    split
    · simp
    · split
      · split <;> simp
      · cases states with
        | none => simp [findStateOpt] at hfind
        | some l =>
          simp only [findStateOpt, Option.bind_some] at hfind
          exact h l rfl existingState (findState_mem hfind)
  · simp

theorem flagsAgree_validatedStates (now : Int) (states : Option (List SectionState))
    (view : Option ClientView) (h : flagsAgreeOpt states) (sections : List SectionDef)
    (validated : List SectionState)
    (hv : validatedStates now states view sections = some validated) :
    flagsAgree validated := by
  induction sections generalizing validated with
  | nil =>
    simp only [validatedStates, Option.some.injEq] at hv
    rw [← hv]
    intro s hs
    cases hs
  | cons d rest ih =>
    simp only [validatedStates] at hv
    split at hv
    · cases hv
    · cases hrest : validatedStates now states view rest with
      | none => simp [hrest] at hv
      | some l =>
        simp only [hrest, Option.map_some', Option.some.injEq] at hv
        rw [← hv]
        intro s hs
        rcases List.mem_cons.mp hs with h1 | h1
        · rw [h1]; exact validatedState_flags now states d h
        · exact ih l hrest s h1

theorem flagsAgree_lockFromSection (now : Int) (states : List SectionState)
    (fromSection : Option String) (h : flagsAgree states) :
    flagsAgree (lockFromSection now states fromSection) := by
  unfold lockFromSection
  split
  · apply flagsAgree_modifyFirst
    · intro s _; simp [lockState]
    · exact h
  · exact flagsAgree_append _ _ h (by simp)

theorem flagsAgree_initNextSection (now : Int) (states : List SectionState)
    (toSection : Option String) (nextSection : SectionDef) (h : flagsAgree states) :
    flagsAgree (initNextSection now states toSection nextSection) := by
  unfold initNextSection
  split
  · exact flagsAgree_append _ _ h (by simp)
  · split
    · apply flagsAgree_modifyFirst
      · intro s hs; exact hs
      · exact h
    · exact h

theorem resumeState_flags (now : Int) (test : Test) (s : SectionState)
    (h : s.isLocked = true ↔ s.isCompleted = true) :
    ((resumeState now test s).1.isLocked = true ↔ (resumeState now test s).1.isCompleted = true) := by
  unfold resumeState
  dsimp only
  repeat' split
  all_goals first
    | exact h
    | simp

theorem flagsAgreeOpt_map_lock (now : Int) (a : Option String)
    (states : Option (List SectionState)) (h : flagsAgreeOpt states) :
    flagsAgreeOpt (states.map (modifyFirst (fun s => s.sectionKey == a) (lockState now))) := by
  cases states with
  | none => exact flagsAgreeOpt_none
  | some l =>
    rw [Option.map_some', flagsAgreeOpt_some]
    apply flagsAgree_modifyFirst
    · intro s _; simp [lockState]
    · exact h l rfl

theorem enforceSectionTime_flags (env : Env) (now : Int) (attempt : Attempt)
    (questionId : String) (early : SaveResult × Attempt)
    (h : enforceSectionTime env now attempt questionId = some early)
    (hflags : flagsAgreeOpt attempt.sectionStates) : flagsAgreeOpt early.2.sectionStates := by
  unfold enforceSectionTime at h
  repeat' split at h
  all_goals first
    | contradiction
    | (injection h with h; subst h; first
        | exact hflags
        | exact flagsAgreeOpt_map_lock now _ _ hflags)

theorem saveResponse_flags (env : Env) (now : Int) (attempt : Attempt) (req : SaveRequest)
    (h : flagsAgreeOpt attempt.sectionStates) :
    flagsAgreeOpt (saveResponse env now attempt req).2.sectionStates := by
  unfold saveResponse
  split
  · exact h
  · split
    · next early he => exact enforceSectionTime_flags env now attempt _ early he h
    · split
      · exact h
      · exact h

theorem syncProgress_flags (env : Env) (now : Int) (attempt : Attempt) (req : SyncRequest)
    (h : flagsAgreeOpt attempt.sectionStates) :
    flagsAgreeOpt (syncProgress env now attempt req).2.sectionStates ∧
    flagsAgreeOpt (syncProgress env now attempt req).1.sectionStates := by
  unfold syncProgress
  split
  · exact ⟨h, flagsAgreeOpt_none⟩
  · split
    · exact ⟨h, flagsAgreeOpt_none⟩
    · next test _ =>
      split
      · exact ⟨h, flagsAgreeOpt_none⟩
      · simp only
        split
        · exact ⟨h, flagsAgreeOpt_none⟩
        · next validated hv =>
          have hval := flagsAgree_validatedStates now attempt.sectionStates req.sectionStates h
            test.sections validated hv
          split
          · exact ⟨h, flagsAgreeOpt_none⟩
          · exact ⟨(flagsAgreeOpt_some _).mpr hval, (flagsAgreeOpt_some _).mpr hval⟩

theorem transitionSection_flags (env : Env) (now : Int) (attempt : Attempt)
    (req : TransitionRequest) (h : flagsAgreeOpt attempt.sectionStates) :
    flagsAgreeOpt (transitionSection env now attempt req).2.sectionStates ∧
    flagsAgreeOpt (transitionSection env now attempt req).1.sectionStates := by
  unfold transitionSection
  simp only
  split
  · exact ⟨h, flagsAgreeOpt_none⟩
  · split
    · exact ⟨h, flagsAgreeOpt_none⟩
    · next sectionStates hs =>
      have h0 : flagsAgree sectionStates := h sectionStates hs
      have h1 := flagsAgree_lockFromSection now sectionStates
        (jsOr req.fromSection req.currentSectionKey) h0
      split
      · exact ⟨h, flagsAgreeOpt_none⟩
      · split
        · exact ⟨h, flagsAgreeOpt_none⟩
        · split
          · split
            · exact ⟨h, flagsAgreeOpt_none⟩
            · have h2 := flagsAgree_initNextSection now _ (jsOr req.toSection req.nextSectionKey)
                ‹SectionDef› h1
              exact ⟨(flagsAgreeOpt_some _).mpr h2, (flagsAgreeOpt_some _).mpr h2⟩
          · exact ⟨(flagsAgreeOpt_some _).mpr h1, (flagsAgreeOpt_some _).mpr h1⟩

theorem getAttemptData_flags (env : Env) (now : Int) (attempt : Attempt)
    (h : flagsAgreeOpt attempt.sectionStates) :
    flagsAgreeOpt (getAttemptData env now attempt).2.sectionStates ∧
    flagsAgreeOpt (getAttemptData env now attempt).1.sectionStates := by
  unfold getAttemptData
  split
  · exact ⟨h, flagsAgreeOpt_none⟩
  · next test _ =>
    have h0 : flagsAgree (attempt.sectionStates.getD []) := by
      cases hs : attempt.sectionStates with
      | none =>
        intro s hmem
        simp at hmem
      | some l => exact h l hs
    have h1 : flagsAgree ((attempt.sectionStates.getD []).map
        (fun s => (resumeState now test s).1)) :=
      flagsAgree_map _ (fun s hs => resumeState_flags now test s hs) _ h0
    simp only
    refine ⟨?_, (flagsAgreeOpt_some _).mpr h1⟩
    split
    · exact (flagsAgreeOpt_some _).mpr h1
    · exact h

theorem mem_initialSectionStates (now : Int) (test : Test) (s : SectionState)
    (h : s ∈ initialSectionStates now test) :
    s.isLocked = false ∧ s.isCompleted = false := by
  obtain ⟨i, hi⟩ := List.mem_iff_getElem?.mp h
  unfold initialSectionStates at hi
  rw [List.getElem?_mapIdx] at hi
  cases hd : test.sections[i]? with
  | none => simp [hd] at hi
  | some d =>
    simp only [hd, Option.map_some', Option.some.injEq] at hi
    rw [← hi]
    exact ⟨rfl, rfl⟩

/-- C30. The two flags of a section state agree throughout a session: the section states
that Start builds have `isLocked = isCompleted = false`; whatever section states the
document of a SaveResponse, SyncProgress, TransitionSection or Resume call carries, if
each has `isLocked = true` exactly when it has `isCompleted = true`, then so has each
section state of the document the call saves and each section state the call returns; and
on every attempt loaded from the collection each section state a call returns has
`isLocked = true` exactly when it has `isCompleted = true`. -/
theorem flags_agree_invariant (env : Env) (now : Int) :
    (∀ test, flagsAgree (initialSectionStates now test)) ∧
    (∀ (attempt : Attempt) (call : Call), flagsAgreeOpt attempt.sectionStates →
      flagsAgreeOpt (call.persisted env now attempt).sectionStates ∧
      flagsAgreeOpt (call.returned env now attempt)) ∧
    (∀ (stored : StoredAttempt) (call : Call),
      flagsAgreeOpt (call.returned env now (hydrate stored))) := by
  have hstep : ∀ (attempt : Attempt) (call : Call), flagsAgreeOpt attempt.sectionStates →
      flagsAgreeOpt (call.persisted env now attempt).sectionStates ∧
      flagsAgreeOpt (call.returned env now attempt) := by
    intro attempt call h
    cases call with
    | saveResponse req => exact ⟨saveResponse_flags env now attempt req h, flagsAgreeOpt_none⟩
    | syncProgress req => exact syncProgress_flags env now attempt req h
    | transitionSection req => exact transitionSection_flags env now attempt req h
    | getAttemptData => exact getAttemptData_flags env now attempt h
  refine ⟨?_, hstep, ?_⟩
  · intro test s hs
    obtain ⟨h1, h2⟩ := mem_initialSectionStates now test s hs
    simp [h1, h2]
  · intro stored call
    exact (hstep (hydrate stored) call flagsAgreeOpt_none).2

/-- Witness of C30: the heartbeat three minutes after Start, on the attempt as loaded from
the collection, returns two section states whose flags agree. -/
theorem flags_agree_invariant_witness :
    (syncProgress exampleEnv 680000 (hydrate startedAttempt) plainSync).1.sectionStates.map
      (fun l => l.map (fun s => (s.isLocked, s.isCompleted))) =
      some [(false, false), (false, false)] ∧
    flagsAgreeOpt (syncProgress exampleEnv 680000 (hydrate startedAttempt)
      plainSync).1.sectionStates :=
  ⟨by decide,
    ((flags_agree_invariant exampleEnv 680000).2.1 (hydrate startedAttempt)
      (Call.syncProgress plainSync) flagsAgreeOpt_none).2⟩

end MockTest
